import Mathlib

/-!
Shallow embedding of the batch orchestration core of the TebraAuto
repository (`src/routes/user.py`) and verification of the frozen claims.

Conventions used throughout:
* Python strings are Lean `String`s; helper functions mirror the Python
  string methods used by the source (`strip`, `lower`, `replace`, `split`).
* Dates are modelled as already-parsed day numbers in `yyyymmdd` form
  (a `Nat`); `none` stands for an absent / unparseable date.  Comparison of
  such numbers agrees with chronological order.
* `pandas` cells are modelled by `Cell` (absent column, NaN value, or a
  string), matching how the source observes them through `str()` and
  `pd.isna`.
* Remote SOAP calls are modelled by passing the response (or fault) as an
  explicit argument; functions that may call the remote service also
  return how many remote calls they made, so caching behaviour is visible.
* Monetary amounts are exact rationals; the source only ever compares the
  parsed amount with `0` and formats it with two decimals.
-/

set_option autoImplicit false

namespace TebraAuto

/-! ### Python-style string helpers -/

/-- Whitespace characters recognised by Python `str.strip()`. -/
def wsChar (c : Char) : Bool :=
  c = ' ' || c = '\t' || c = '\n' || c = '\r' || c = '\x0b' || c = '\x0c'

/-- Characters removed by Python `str.strip("; ")`. -/
def ssChar (c : Char) : Bool :=
  c = ';' || c = ' '

/-- Drop characters satisfying `p` from the end of a list. -/
def dropEndWhile (p : Char → Bool) (l : List Char) : List Char :=
  (l.reverse.dropWhile p).reverse

/-- Drop characters satisfying `p` from both ends of a list. -/
def stripCharsL (p : Char → Bool) (l : List Char) : List Char :=
  dropEndWhile p (l.dropWhile p)

/-- Python `str.strip()`. -/
def pyStrip (s : String) : String :=
  String.mk (stripCharsL wsChar s.data)

/-- Python `str.strip("; ")`. -/
def pyStripSemiSpace (s : String) : String :=
  String.mk (stripCharsL ssChar s.data)

/-- Python `str.lower()`. -/
def lowerStr (s : String) : String :=
  String.mk (s.data.map Char.toLower)

/-- Python `str.upper()`. -/
def upperStr (s : String) : String :=
  String.mk (s.data.map Char.toUpper)

/-- Python slicing `s[:n]`. -/
def takeStr (n : Nat) (s : String) : String :=
  String.mk (s.data.take n)

/-- Python slicing `s[n:]`. -/
def dropStr (n : Nat) (s : String) : String :=
  String.mk (s.data.drop n)

/-- Python `len(s)`. -/
def strLen (s : String) : Nat :=
  s.data.length

/-- Python `s.replace(c, "")` for a single-character pattern. -/
def removeChar (c : Char) (s : String) : String :=
  String.mk (s.data.filter (· ≠ c))

/-- Does `pat` occur as a leading run of `l`? -/
def isPrefixL : List Char → List Char → Bool
  | [], _ => true
  | _ :: _, [] => false
  | p :: ps, c :: cs => p = c && isPrefixL ps cs

/-- First occurrence of `pat` inside a list: the text before it and the
text after it.  `none` when `pat` does not occur. -/
def findSplitL (pat : List Char) : List Char → Option (List Char × List Char)
  | [] => if isPrefixL pat [] then some ([], []) else none
  | c :: cs =>
    if isPrefixL pat (c :: cs) then some ([], List.drop pat.length (c :: cs))
    else
      match findSplitL pat cs with
      | some (pre, post) => some (c :: pre, post)
      | none => none

/-- Python `pat in l` on character lists. -/
def containsL (pat : List Char) (l : List Char) : Bool :=
  (findSplitL pat l).isSome

/-- Python `pat in s`. -/
def containsS (s pat : String) : Bool :=
  containsL pat.data s.data

/-- Python `s.startswith(pat)`. -/
def startsWithS (s pat : String) : Bool :=
  isPrefixL pat.data s.data

/-- Python `s.endswith(pat)`. -/
def endsWithS (s pat : String) : Bool :=
  isPrefixL pat.data.reverse s.data.reverse

/-- Split a character list at every separator recognised by `p`
(Python `str.split(sep)` semantics: the result is never empty and
separators delimit possibly-empty groups). -/
def splitOnPred (p : Char → Bool) : List Char → List (List Char)
  | [] => [[]]
  | c :: rest =>
    if p c then [] :: splitOnPred p rest
    else
      match splitOnPred p rest with
      | g :: gs => (c :: g) :: gs
      | [] => [[c]]

/-- `[m.strip() for m in s.split(';') if m.strip()]` — split on semicolons,
strip each part and drop blanks. -/
def splitClean (s : String) : List String :=
  ((splitOnPred (· = ';') s.data).map (fun g => pyStrip (String.mk g))).filter (· ≠ "")

/-- Python `sep.join` specialised to the separators used by the source. -/
def joinWith (sep : String) : List String → String
  | [] => ""
  | s :: rest =>
    match rest with
    | [] => s
    | _ :: _ => s ++ sep ++ joinWith sep rest

/-! ### Number and date parsing helpers -/

/-- Value of a decimal digit character. -/
def digitVal (c : Char) : Nat := c.toNat - 48

/-- Is every character a decimal digit? -/
def allDigits (l : List Char) : Bool := l.all Char.isDigit

/-- Numeric value of a digit run. -/
def digitsToNat (l : List Char) : Nat :=
  l.foldl (fun acc c => acc * 10 + digitVal c) 0

/-- An exact decimal number `num / 10 ^ exp`, the value Python `float`
yields on the finite decimal literals this program feeds it.  Keeping the
mantissa and power-of-ten scale unnormalised keeps every operation
kernel-computable; `Dec.toRat` recovers the rational value. -/
structure Dec where
  num : Int
  exp : Nat
deriving DecidableEq

/-- The rational value of an exact decimal. -/
def Dec.toRat (d : Dec) : ℚ :=
  (d.num : ℚ) / (10 : ℚ) ^ d.exp

/-- `10 ^ n`. -/
def pow10 (n : Nat) : Nat := 10 ^ n

/-- Python `float(s)` restricted to finite decimal literals (optional sign,
digits, optional fractional part) — the shapes the source feeds it after
cleaning currency symbols and separators.  `none` models `ValueError`. -/
def parseDecimal (s : String) : Option Dec :=
  let cs := s.data
  let signed : Int × List Char :=
    match cs with
    | '-' :: rest => (-1, rest)
    | '+' :: rest => (1, rest)
    | _ => (1, cs)
  match splitOnPred (· = '.') signed.2 with
  | [ip] =>
    if ip ≠ [] ∧ allDigits ip then
      some { num := signed.1 * (digitsToNat ip : Int), exp := 0 }
    else none
  | [ip, fp] =>
    if (ip ≠ [] ∨ fp ≠ []) ∧ allDigits ip ∧ allDigits fp then
      some { num := signed.1 * ((digitsToNat ip * pow10 fp.length + digitsToNat fp : Nat) : Int),
             exp := fp.length }
    else none
  | _ => none

/-- The amount in whole cents, truncated toward zero — the quantity
Python `f"{x:.2f}"` renders for the exact-cent amounts this program
formats. -/
def Dec.cents (d : Dec) : Int :=
  if d.exp ≤ 2 then d.num * ((pow10 (2 - d.exp) : Nat) : Int)
  else if 0 ≤ d.num then ((d.num.natAbs / pow10 (d.exp - 2) : Nat) : Int)
  else -((d.num.natAbs / pow10 (d.exp - 2) : Nat) : Int)

/-- Two-digit zero-padded rendering of `n < 100`. -/
def pad2 (n : Nat) : String :=
  if n < 10 then "0" ++ toString n else toString n

/-- Python `f"{x:.2f}"` for exact-cent decimals. -/
def formatMoney (d : Dec) : String :=
  let cents := d.cents
  let a := cents.natAbs
  (if cents < 0 then "-" else "") ++ toString (a / 100) ++ "." ++ pad2 (a % 100)

/-- `is_date_value_present` (user.py line 223): the string is not blank and
not the literal `None`. -/
def is_date_value_present (s : String) : Bool :=
  pyStrip s ≠ "" && lowerStr (pyStrip s) ≠ "none"

/-- `pd.to_datetime(...).date()` restricted to ISO `YYYY-MM-DD` input,
returned as the day number `yyyymmdd`.  `none` models a parse failure. -/
def parseDate (s : String) : Option Nat :=
  match (pyStrip s).data with
  | [y1, y2, y3, y4, '-', m1, m2, '-', d1, d2] =>
    if allDigits [y1, y2, y3, y4] ∧ allDigits [m1, m2] ∧ allDigits [d1, d2] then
      let m := digitsToNat [m1, m2]
      let d := digitsToNat [d1, d2]
      if 1 ≤ m ∧ m ≤ 12 ∧ 1 ≤ d ∧ d ≤ 31 then
        some (digitsToNat [y1, y2, y3, y4] * 10000 + m * 100 + d)
      else none
    else none
  | _ => none

/-! ### Fixed tables from the source -/

/-- `PAYMENT_SOURCE_TO_CODE` (user.py line 230). -/
def PAYMENT_SOURCE_TO_CODE : List (String × String) :=
  [("CHECK", "1"), ("CREDIT CARD", "3"), ("CC", "3"),
   ("ELECTRONIC FUNDS TRANSFER", "4"), ("EFT", "4"), ("CASH", "5")]

/-- `get_payment_source_code` (user.py line 239). -/
def get_payment_source_code (s : String) : Option String :=
  if s = "" then none
  else (PAYMENT_SOURCE_TO_CODE.find? (fun e => e.1 = upperStr (pyStrip s))).map (·.2)

/-- `ENCOUNTER_STATUS_CODE_MAP_PHASE3` (user.py line 509). -/
def ENCOUNTER_STATUS_CODE_MAP_PHASE3 : List (String × String) :=
  [("0", "Undefined"), ("1", "Draft"), ("2", "Review"), ("3", "Approved"),
   ("4", "Rejected"), ("5", "Billed"), ("6", "Unpayable"), ("7", "Pending")]

/-- `map_encounter_status_code` (user.py line 515).  `none` models a
missing / NaN status code. -/
def map_encounter_status_code (c : Option String) : String :=
  match c with
  | none => "Status N/A"
  | some s =>
    if pyStrip s = "" then "Status N/A"
    else
      match (ENCOUNTER_STATUS_CODE_MAP_PHASE3.find? (fun e => e.1 = pyStrip s)).map (·.2) with
      | some v => v
      | none => "Unknown Code (" ++ s ++ ")"

/-! ### Phase 1: patient and insurance fetch (user.py lines 293-379) -/

/-- One insurance policy on a patient case.  Dates are pre-parsed day
numbers; `none` models `EffectiveStartDate` / `EffectiveEndDate` being
absent or the literal `None` (`is_date_value_present` false). -/
structure InsurancePolicy where
  effectiveStartDate : Option Nat
  effectiveEndDate : Option Nat
  planName : String
  number : String
deriving DecidableEq

/-- One patient case with its insurance policies. -/
structure CaseData where
  isPrimaryCase : Bool
  policies : List InsurancePolicy
deriving DecidableEq

/-- The patient payload of a successful `GetPatient` response. -/
structure PatientPayload where
  firstName : String
  lastName : String
  dob : Option String
  cases : List CaseData
deriving DecidableEq

/-- Outcome of the remote `GetPatient` exchange: explicit API error, auth
failure, SOAP fault, unexpected exception, or a response whose `Patient`
field is present (`some`) or missing (`none`). -/
inductive Phase1ApiResult where
  | apiError (msg : String)
  | authError (msg : String)
  | fault (msg : String)
  | sysError (name : String)
  | ok (patient : Option PatientPayload)
deriving DecidableEq

/-- The `results` dictionary built by `phase1_fetch_patient_and_insurance`. -/
structure Phase1Results where
  fetchedPatientName : Option String
  fetchedPatientDOB : Option String
  fetchedInsuranceName : Option String
  fetchedInsuranceID : Option String
  fetchedInsuranceStatus : String
  simpleError : Option String
deriving DecidableEq

/-- The policy-activity test of user.py lines 345-363: a policy is active
on the DOS when its start date is present and `start ≤ DOS` and (no end
date, or `end ≥ DOS`); a policy with neither date is assumed active. -/
def isActiveOnDos (dos : Nat) (p : InsurancePolicy) : Bool :=
  match p.effectiveStartDate with
  | some s =>
    if s ≤ dos then
      match p.effectiveEndDate with
      | none => true
      | some e => dos ≤ e
    else false
  | none =>
    match p.effectiveEndDate with
    | none => true
    | some _ => false

/-- The same activity condition written out from the words of the claim
(for comparison with `isActiveOnDos`): (start present and start ≤ DOS)
AND (no end date OR end date ≥ DOS), OR neither date present. -/
def specActiveOnDos (dos : Nat) (p : InsurancePolicy) : Bool :=
  (p.effectiveStartDate.isSome
      && (match p.effectiveStartDate with | some s => decide (s ≤ dos) | none => false)
      && (p.effectiveEndDate.isNone
          || (match p.effectiveEndDate with | some e => decide (dos ≤ e) | none => false)))
  || (p.effectiveStartDate.isNone && p.effectiveEndDate.isNone)

/-- Fields of `results` written by the policy loop of user.py
lines 344-372. -/
structure InsSelection where
  name : Option String
  id : Option String
  status : String
deriving DecidableEq

/-- The policy loop of user.py lines 344-372: scan the policies in
returned order, the first one active on the DOS wins; otherwise the
status records that no primary active insurance was found. -/
def selectInsurance (dos : Nat) : List InsurancePolicy → InsSelection
  | [] => { name := none, id := none, status := "No Primary Active Ins. Found" }
  | p :: rest =>
    if isActiveOnDos dos p then
      { name := some (pyStrip p.planName), id := some (pyStrip p.number), status := "Active" }
    else selectInsurance dos rest

/-- `next((c for c in all_cases if IsPrimaryCase), all_cases[0] ...)`
(user.py line 336). -/
def pickPrimaryCase (cases : List CaseData) : Option CaseData :=
  match cases.find? (·.isPrimaryCase) with
  | some c => some c
  | none => cases.head?

/-- `phase1_fetch_patient_and_insurance` (user.py lines 293-379).  The
DOS parse-failure message carries a fixed suffix where Python interpolates
the exception text. -/
def phase1_fetch_patient_and_insurance (patientIdStr dosStr : String)
    (resp : Phase1ApiResult) : Phase1Results :=
  if pyStrip patientIdStr = "" then
    { fetchedPatientName := none, fetchedPatientDOB := none,
      fetchedInsuranceName := none, fetchedInsuranceID := none,
      fetchedInsuranceStatus := "Patient ID Missing",
      simpleError := some "Patient ID is missing." }
  else
    match parseDecimal (pyStrip patientIdStr) with
    | none =>
      { fetchedPatientName := none, fetchedPatientDOB := none,
        fetchedInsuranceName := none, fetchedInsuranceID := none,
        fetchedInsuranceStatus := "Invalid Patient ID",
        simpleError := some ("Invalid Patient ID format: \x27" ++ patientIdStr ++ "\x27.") }
    | some _ =>
      let dosParsed : Option Nat :=
        if is_date_value_present dosStr then parseDate dosStr else none
      let preErr : Option String :=
        if is_date_value_present dosStr ∧ dosParsed = none then
          some ("Invalid DOS \x27" ++ dosStr ++ "\x27: parse error")
        else none
      match resp with
      | .apiError m =>
        { fetchedPatientName := none, fetchedPatientDOB := none,
          fetchedInsuranceName := none, fetchedInsuranceID := none,
          fetchedInsuranceStatus := "API Error (Patient)",
          simpleError := some ("API Err(GetPt): " ++ m) }
      | .authError m =>
        { fetchedPatientName := none, fetchedPatientDOB := none,
          fetchedInsuranceName := none, fetchedInsuranceID := none,
          fetchedInsuranceStatus := "API Auth Error (Patient)",
          simpleError := some ("API Auth Err(GetPt): " ++ m) }
      | .fault m =>
        { fetchedPatientName := none, fetchedPatientDOB := none,
          fetchedInsuranceName := none, fetchedInsuranceID := none,
          fetchedInsuranceStatus := "SOAP Error (Patient)",
          simpleError := some ("SOAP Fault(GetPt): " ++ m) }
      | .sysError n =>
        { fetchedPatientName := none, fetchedPatientDOB := none,
          fetchedInsuranceName := none, fetchedInsuranceID := none,
          fetchedInsuranceStatus := "Sys Err(Pt)",
          simpleError := some ("Error in Ph1(GetPt): " ++ n) }
      | .ok none =>
        { fetchedPatientName := none, fetchedPatientDOB := none,
          fetchedInsuranceName := none, fetchedInsuranceID := none,
          fetchedInsuranceStatus := "Patient Not Found",
          simpleError := some "Patient data not in API resp." }
      | .ok (some pt) =>
        let name0 := pyStrip (pt.firstName ++ " " ++ pt.lastName)
        let name := if name0 = "" then none else some name0
        match dosParsed with
        | none =>
          { fetchedPatientName := name, fetchedPatientDOB := pt.dob,
            fetchedInsuranceName := none, fetchedInsuranceID := none,
            fetchedInsuranceStatus := "Ins. Check Skipped (No Valid DOS)",
            simpleError := preErr }
        | some dos =>
          match pt.cases with
          | [] =>
            { fetchedPatientName := name, fetchedPatientDOB := pt.dob,
              fetchedInsuranceName := none, fetchedInsuranceID := none,
              fetchedInsuranceStatus := "No Case Data for Ins. Check",
              simpleError := preErr }
          | c0 :: cs =>
            match pickPrimaryCase (c0 :: cs) with
            | none =>
              { fetchedPatientName := name, fetchedPatientDOB := pt.dob,
                fetchedInsuranceName := none, fetchedInsuranceID := none,
                fetchedInsuranceStatus := "No Ins. Policies on Primary Case",
                simpleError := preErr }
            | some pc =>
              match pc.policies with
              | [] =>
                { fetchedPatientName := name, fetchedPatientDOB := pt.dob,
                  fetchedInsuranceName := none, fetchedInsuranceID := none,
                  fetchedInsuranceStatus := "No Ins. Policies on Primary Case",
                  simpleError := preErr }
              | p0 :: ps =>
                let sel := selectInsurance dos (p0 :: ps)
                { fetchedPatientName := name, fetchedPatientDOB := pt.dob,
                  fetchedInsuranceName := sel.name, fetchedInsuranceID := sel.id,
                  fetchedInsuranceStatus := sel.status,
                  simpleError := preErr }

/-! ### Phase 2: payment posting (user.py lines 382-486) -/

/-- The envelope observed on a `CreatePayment` response: `some` in
`errorMessage` models `ErrorResponse.IsError` with its message, `some` in
`securityResult` models a present `SecurityResponse` that is not
authorized, and `paymentID` carries the numeric payment id when present. -/
structure CreatePaymentResponse where
  errorMessage : Option String
  securityResult : Option String
  paymentID : Option Int
deriving DecidableEq

/-- Outcome of the remote `CreatePayment` exchange. -/
inductive PaymentApiResult where
  | fault (msg : String)
  | sysError (name msg : String)
  | resp (r : CreatePaymentResponse)
deriving DecidableEq

/-- The `results` dictionary of `phase2_post_tebra_payment`, extended with
a flag recording whether the remote `CreatePayment` call was made. -/
structure PaymentOutcome where
  success : Bool
  message : String
  simpleMessage : String
  paymentID : Option String
  calledRemote : Bool
deriving DecidableEq

/-- Response handling of `phase2_post_tebra_payment`
(user.py lines 461-477): success iff no error envelope, no auth failure,
and a present payment id strictly greater than zero; a response lacking
both an id and an error is recorded as unclear with `Success` false. -/
def processPaymentResponse (r : CreatePaymentResponse) : PaymentOutcome :=
  match r.errorMessage with
  | some err =>
    { success := false,
      message := "API Error (CreatePayment): " ++ err,
      simpleMessage := "P2 API Error (" ++ pyStrip (takeStr 70 err) ++ "...)",
      paymentID := none, calledRemote := true }
  | none =>
    match r.securityResult with
    | some sec =>
      { success := false,
        message := "API Auth Error (CreatePayment): " ++ sec,
        simpleMessage := "P2 API Auth Error.",
        paymentID := none, calledRemote := true }
    | none =>
      match r.paymentID with
      | some n =>
        if 0 < n then
          { success := true,
            message := "Payment successfully posted. Tebra Payment ID: " ++ toString n,
            simpleMessage := "Payment #" ++ toString n ++ " Posted.",
            paymentID := some (toString n), calledRemote := true }
        else
          { success := false,
            message := "Payment response from Tebra unclear (no PaymentID or error).",
            simpleMessage := "P2 Status Unknown (Tebra resp unclear).",
            paymentID := none, calledRemote := true }
      | none =>
        { success := false,
          message := "Payment response from Tebra unclear (no PaymentID or error).",
          simpleMessage := "P2 Status Unknown (Tebra resp unclear).",
          paymentID := none, calledRemote := true }

/-- The core-input presence test of user.py line 398:
`val and str(val).strip() and str(val).strip().lower() != 'nan'`. -/
def coreInputOk (v : String) : Bool :=
  v ≠ "" && pyStrip v ≠ "" && lowerStr (pyStrip v) ≠ "nan"

/-- The missing-field test of user.py line 405:
`pd.isna(v) or not str(v).strip() or str(v).strip().lower() == 'nan'`. -/
def fieldMissing (v : String) : Bool :=
  pyStrip v = "" || lowerStr (pyStrip v) = "nan"

/-- `str(x).replace('$', '').replace(',', '').strip()` (user.py line 415). -/
def cleanAmount (s : String) : String :=
  pyStrip (removeChar ',' (removeChar '$' s))

/-- `phase2_post_tebra_payment` (user.py lines 382-486).  Validation is
performed in source order; a result with `calledRemote := false` is
returned before the remote `CreatePayment` call is ever made. -/
def phase2_post_tebra_payment (patientIdStr practiceIdStr practiceName ppBatch
    amountStr sourceStr refNum : String) (api : PaymentApiResult) : PaymentOutcome :=
  let noCall (simple : String) : PaymentOutcome :=
    { success := false, message := "Processing not initiated.",
      simpleMessage := simple, paymentID := none, calledRemote := false }
  if ¬(coreInputOk ppBatch ∧ coreInputOk amountStr ∧ coreInputOk sourceStr) then
    noCall "P2 Skipped: Missing one or more core payment inputs (Batch, Amount, Source)."
  else
    let missing :=
      ([("Patient ID", patientIdStr), ("Practice ID", practiceIdStr),
        ("PP Batch #", ppBatch), ("Patient Payment", amountStr),
        ("Patient Payment Source", sourceStr)]).filterMap
        (fun e => if fieldMissing e.2 then some e.1 else none)
    if missing ≠ [] then
      noCall ("P2 Skipped: Missing/invalid data for: " ++ joinWith ", " missing ++ ".")
    else
      match parseDecimal (cleanAmount amountStr) with
      | none =>
        noCall ("P2 Invalid: Payment amount format \x27" ++ amountStr ++ "\x27.")
      | some a =>
        -- `amount_float <= 0`: the sign of the value is the sign of the mantissa
        if a.num ≤ 0 then
          noCall ("P2 Invalid: Payment amount $" ++ formatMoney a ++ " must be > 0.")
        else
          match get_payment_source_code sourceStr with
          | none =>
            noCall ("P2 Invalid: Unmapped payment source \x27" ++ sourceStr ++ "\x27.")
          | some _ =>
            match api with
            | .fault m =>
              { success := false, message := "SOAP FAULT (CreatePayment): " ++ m,
                simpleMessage := "P2 Failed (SOAP Error).",
                paymentID := none, calledRemote := true }
            | .sysError n m =>
              { success := false, message := "Error during payment: " ++ n ++ " - " ++ m,
                simpleMessage := "P2 Failed (System Error: " ++ n ++ ").",
                paymentID := none, calledRemote := true }
            | .resp r => processPaymentResponse r

/-! ### Phase 3: service-line validation (user.py lines 809-846, 1160-1172) -/

/-- A pandas cell as the source observes it: the column is absent from the
row dictionary, the value is NaN, or it is a string. -/
inductive Cell where
  | absent
  | nanv
  | str (s : String)
deriving DecidableEq

/-- `str(service_line_data_dict.get(col, dflt))`: an absent key yields the
default, NaN prints as `"nan"`. -/
def cellGetStr (c : Cell) (dflt : String) : String :=
  match c with
  | .absent => dflt
  | .nanv => "nan"
  | .str s => s

/-- `val is None or pd.isna(val)`. -/
def cellIsNa (c : Cell) : Bool :=
  match c with
  | .absent => true
  | .nanv => true
  | .str _ => false

/-- The service-line fields of one data row, addressed through the column
map (the map resolves logical names to columns; here the fields are
accessed directly). -/
structure SLRow where
  procedures : Cell
  units : Cell
  diag1 : Cell
  mod1 : Cell
  mod2 : Cell
  mod3 : Cell
  mod4 : Cell
  diag2 : Cell
  diag3 : Cell
  diag4 : Cell
deriving DecidableEq

/-- `clean_value_p3` (user.py line 826): strip; for modifiers drop a
trailing `.0` and truncate to 2 characters; blank or `nan` becomes
`None`. -/
def clean_value_p3 (c : Cell) (isModifier : Bool) : Option String :=
  let s0 : String :=
    match c with
    | .absent => ""
    | .nanv => ""
    | .str s => s
  let s1 := pyStrip s0
  let s2 :=
    if isModifier then
      let sa := if endsWithS s1 ".0" then takeStr (strLen s1 - 2) s1 else s1
      if sa ≠ "" ∧ strLen sa > 2 then takeStr 2 sa else sa
    else s1
  if s2 ≠ "" ∧ lowerStr s2 ≠ "nan" then some s2 else none

/-- The `ServiceLineReq` payload assembled by the source. -/
structure ServiceLinePayload where
  procedureCode : String
  units : Dec
  diagnosisCode1 : String
  modifiers : List (Nat × String)
  extraDiagnoses : List (Nat × String)
deriving DecidableEq

/-- `create_service_line_payload_phase3` (user.py lines 809-846): `none`
models the `return None` taken when the procedure code is blank, the
units are absent / not a number / not greater than zero, or the primary
diagnosis is blank or cleans to nothing. -/
def create_service_line_payload_phase3 (row : SLRow) : Option ServiceLinePayload :=
  let proc_code := pyStrip (cellGetStr row.procedures "")
  if proc_code = "" then none
  else if cellIsNa row.units ∨ pyStrip (cellGetStr row.units "") = ""
      ∨ lowerStr (pyStrip (cellGetStr row.units "")) = "nan" then none
  else if cellIsNa row.diag1 ∨ pyStrip (cellGetStr row.diag1 "") = ""
      ∨ lowerStr (pyStrip (cellGetStr row.diag1 "")) = "nan" then none
  else
    match parseDecimal (pyStrip (cellGetStr row.units "")) with
    | none => none
    | some u =>
      -- `units_float <= 0`: the sign of the value is the sign of the mantissa
      if u.num ≤ 0 then none
      else
        match clean_value_p3 row.diag1 false with
        | none => none
        | some d1 =>
          some { procedureCode := proc_code, units := u, diagnosisCode1 := d1,
                 modifiers :=
                   ([(1, row.mod1), (2, row.mod2), (3, row.mod3), (4, row.mod4)]).filterMap
                     (fun e => (clean_value_p3 e.2 true).map (fun v => (e.1, v))),
                 extraDiagnoses :=
                   ([(2, row.diag2), (3, row.diag3), (4, row.diag4)]).filterMap
                     (fun e => (clean_value_p3 e.2 false).map (fun v => (e.1, v))) }

/-- Outcome of the service-line stage of
`_create_encounter_for_group_and_get_details`: either an abort message or
the list of service lines handed to the `CreateEncounter` request. -/
inductive GroupAction where
  | aborted (msg : String)
  | submitted (lines : List ServiceLinePayload)
deriving DecidableEq

/-- The service-line loop of user.py lines 1160-1172: rows carry their
original spreadsheet row number; the first row whose payload fails aborts
the whole group before any request is built. -/
def buildGroupServiceLinesGo (acc : List ServiceLinePayload) :
    List (Nat × SLRow) → GroupAction
  | [] =>
    if acc = [] then .aborted "Enc Error: No valid service lines."
    else .submitted acc.reverse
  | (n, r) :: rest =>
    match create_service_line_payload_phase3 r with
    | some p => buildGroupServiceLinesGo (p :: acc) rest
    | none =>
      .aborted ("Enc Error: Failed service line from Excel row " ++ toString n ++ ".")

/-- Entry point of the service-line stage for one group. -/
def buildGroupServiceLines (rows : List (Nat × SLRow)) : GroupAction :=
  buildGroupServiceLinesGo [] rows

/-! ### Phase 3: provider resolution (user.py lines 583-659) -/

/-- One provider record of a `GetProviders` response. -/
structure ProviderData where
  active : Bool
  fullName : String
  ptype : String
  id : String
  npi : String
deriving DecidableEq

/-- Credential / organisational tokens stripped from names
(user.py lines 616 and 642). -/
def excludedNameTokens : List String :=
  ["md", "do", "pa", "np", "lcsw", "msw", "inc", "llc", "pc",
   "group", "associates", "services", "medical"]

/-- `ACCEPTABLE_RS_TYPES` (user.py line 598). -/
def acceptableRSTypes : List String :=
  ["normal provider", "physician", "group practice"]

/-- Separators of the name-token split `re.split(r'[\s,.]+', name)`. -/
def nameSepChar (c : Char) : Bool :=
  wsChar c || c = ',' || c = '.'

/-- `[t.lower() for t in re.split(r'[\s,.]+', s) if t.lower() not in
EXCLUDED and t]`. -/
def nameTerms (s : String) : List String :=
  (((splitOnPred nameSepChar s.data).filter (· ≠ [])).map
      (fun t => lowerStr (String.mk t))).filter
    (fun t => ¬ t ∈ excludedNameTokens)

/-- `match_count` of user.py line 644: how many query terms occur among
the candidate terms. -/
def flexMatchCount (terms cand : List String) : Nat :=
  (terms.filter (· ∈ cand)).length

/-- The flexible-match score of user.py line 645:
`((match_count / len(search_terms)) * 100) if search_terms and
match_count == len(search_terms) else 0`. -/
def flexScore (terms cand : List String) : ℚ :=
  if terms ≠ [] ∧ flexMatchCount terms cand = terms.length then
    ((flexMatchCount terms cand : ℚ) / (terms.length : ℚ)) * 100
  else 0

/-- The fraction of query tokens present among the candidate tokens,
written out from the words of the claim (for comparison with
`flexScore`). -/
def specTokenFraction (terms cand : List String) : ℚ :=
  (flexMatchCount terms cand : ℚ) / (terms.length : ℚ)

/-- `sorted(matches, key=score, reverse=True)[0]`: the earliest entry with
the maximal score (Python sort is stable). -/
def pickFirstMax : List (String × ℚ) → Option (String × ℚ)
  | [] => none
  | x :: rest =>
    match pickFirstMax rest with
    | none => some x
    | some y => if y.2 > x.2 then some y else some x

/-- Candidate terms of user.py lines 642-643 (fall back to the whole
lowered name when every token is excluded). -/
def candidateTerms (fullName : String) : List String :=
  let ts := nameTerms fullName
  if ts = [] then [lowerStr fullName] else ts

/-- The per-record admissibility test shared by both passes of the
provider loop (user.py lines 618-624 and 634-641): active, non-blank
name and id, and — for the flexible pass and the exact hit — an
acceptable type. -/
def rsTypeOk (p : ProviderData) : Bool :=
  p.active && pyStrip p.fullName ≠ "" && pyStrip p.id ≠ ""
    && decide (lowerStr (pyStrip p.ptype) ∈ acceptableRSTypes)

/-- The exact-pass hit test (user.py lines 625-629). -/
def exactRSPred (normKey : String) (p : ProviderData) : Bool :=
  rsTypeOk p && lowerStr (pyStrip p.fullName) = normKey

/-- One candidate of the flexible pass (user.py lines 641-647): kept with
its score when the score reaches 80. -/
def flexEntry (terms : List String) (p : ProviderData) : Option (String × ℚ) :=
  if rsTypeOk p then
    let score := flexScore terms (candidateTerms (pyStrip p.fullName))
    if 80 ≤ score then some (pyStrip p.id, score) else none
  else none

/-- Acceptance by the flexible pass, spelled without the score: an
admissible candidate covering every query token. -/
def flexFirstPred (terms : List String) (p : ProviderData) : Bool :=
  rsTypeOk p && decide (terms ≠ [])
    && flexMatchCount terms (candidateTerms (pyStrip p.fullName)) = terms.length

/-- The search terms derived from the query (user.py lines 616-617). -/
def searchTermsOf (searchName : String) : List String :=
  let ts := nameTerms searchName
  if ts = [] then [lowerStr searchName] else ts

/-- The matching core of `get_provider_id_by_name_phase3`
(user.py lines 583-659), given the provider records returned by the
remote service: first an exact case-insensitive full-name match over
active providers of an acceptable type; otherwise the flexible search
over the same population, keeping scores of at least 80 and returning
the best one (first on ties, as Python's stable descending sort does). -/
def get_provider_id_by_name_phase3 (providerNameRaw : String)
    (providers : List ProviderData) : Option String :=
  let searchName := pyStrip providerNameRaw
  let normKey := lowerStr searchName
  let searchTerms := searchTermsOf searchName
  match providers.find? (exactRSPred normKey) with
  | some p => some (pyStrip p.id)
  | none =>
    (pickFirstMax (providers.filterMap (flexEntry searchTerms))).map (·.1)

/-- A rational-free computation of the same resolver (every kept flexible
score equals 100, so the best flexible match is the first acceptable
full-coverage candidate); proved equal to
`get_provider_id_by_name_phase3` below and used to evaluate it on
concrete inputs. -/
def getProviderIdFlexFirst (providerNameRaw : String)
    (providers : List ProviderData) : Option String :=
  let searchName := pyStrip providerNameRaw
  let normKey := lowerStr searchName
  let searchTerms := searchTermsOf searchName
  match providers.find? (exactRSPred normKey) with
  | some p => some (pyStrip p.id)
  | none =>
    (providers.find? (flexFirstPred searchTerms)).map (fun p => pyStrip p.id)

/-! ### Entity resolver and cache: practice lookup (user.py lines 246-290) -/

/-- One practice record of a `GetPractices` response. -/
structure PracticeData where
  practiceName : String
  id : String
  active : Bool
deriving DecidableEq

/-- The run-scoped practice cache: normalized name to cached outcome
(`none` is the cached "not found" sentinel). -/
abbrev PracticeCache := List (String × Option String)

/-- `key in cache_dict` / `cache_dict[key]`. -/
def cacheFind (cache : PracticeCache) (k : String) : Option (Option String) :=
  (cache.find? (fun e => e.1 = k)).map (·.2)

/-- `cache_dict[key] = v`. -/
def cacheInsert (cache : PracticeCache) (k : String) (v : Option String) : PracticeCache :=
  cache ++ [(k, v)]

/-- Outcome of the remote `GetPractices` exchange; `ok []` corresponds to
a response carrying no `Practices.PracticeData`. -/
inductive PracticesApiResult where
  | apiError (msg : String)
  | authError (msg : String)
  | fault (msg : String)
  | ok (practices : List PracticeData)
deriving DecidableEq

/-- The matching loop of user.py lines 275-281: break on the first active
exact-name match with a non-blank id, otherwise remember the latest
matching non-blank inactive id. -/
def practiceLoop (normName : String) (foundInactive : Option String) :
    List PracticeData → Option String × Option String
  | [] => (none, foundInactive)
  | p :: rest =>
    let apiName := pyStrip p.practiceName
    let idStr := pyStrip p.id
    if lowerStr apiName = normName then
      if p.active && idStr ≠ "" then (some idStr, foundInactive)
      else if idStr ≠ "" then practiceLoop normName (some idStr) rest
      else practiceLoop normName foundInactive rest
    else practiceLoop normName foundInactive rest

/-- `get_practice_id_by_name` (user.py lines 246-290).  The result also
carries the updated cache and the number of remote calls made (`0` on a
cache hit, `1` otherwise).  Error, auth-error and SOAP-fault outcomes
return without writing the cache, exactly as the source does. -/
def get_practice_id_by_name (nameRaw : String) (resp : PracticesApiResult)
    (cache : PracticeCache) : Option String × PracticeCache × Nat :=
  if pyStrip nameRaw = "" then (none, cache, 0)
  else
    let norm := lowerStr (pyStrip nameRaw)
    match cacheFind cache norm with
    | some v => (v, cache, 0)
    | none =>
      match resp with
      | .apiError _ => (none, cache, 1)
      | .authError _ => (none, cache, 1)
      | .fault _ => (none, cache, 1)
      | .ok ps =>
        match ps with
        | [] => (none, cacheInsert cache norm none, 1)
        | _ :: _ =>
          let found := practiceLoop norm none ps
          match found.1.orElse (fun _ => found.2) with
          | some v => (some v, cacheInsert cache norm (some v), 1)
          | none => (none, cacheInsert cache norm none, 1)

/-- Two successive resolutions of the same practice name within one run,
counting the remote calls they make in total. -/
def practiceLookupTwice (name : String) (resp : PracticesApiResult)
    (cache : PracticeCache) : Nat :=
  let r1 := get_practice_id_by_name name resp cache
  let r2 := get_practice_id_by_name name resp r1.2.1
  r1.2.2 + r2.2.2

/-! ### Orchestrator: per-row Phase 1/2 loop (user.py lines 1296-1340) -/

/-- The input cells of one row as read by the orchestrator
(`str(row_data.get(col, "")).strip()` is applied at the use sites). -/
structure RowInputs where
  patientId : String
  practice : String
  dos : String
  ppBatch : String
  patientPayment : String
  paymentSource : String
  referenceNumber : String
deriving DecidableEq

/-- The Phase 1 statuses exempt from a row message
(user.py line 1318; the Python list also contains `None`, covered here by
the empty string since the embedding always records a status string). -/
def p1ExemptStatuses : List String :=
  ["Active", "Active (Primary)", "Multiple Active Found", "",
   "Ins. Check Skipped (No Valid DOS)"]

/-- `val and val.lower() != 'nan'` on an already-stripped value
(user.py line 1326). -/
def presentVal (v : String) : Bool :=
  if v = "" then false else if lowerStr v = "nan" then false else true

/-- The Phase 1 row message (user.py lines 1317-1318): an error message
when `SimpleError` is set, a status message for a non-exempt status, and
nothing otherwise. -/
def p1MsgOf (p1 : Phase1Results) : String :=
  match p1.simpleError with
  | some e => "P1 Error: " ++ e
  | none =>
    if decide (p1.fetchedInsuranceStatus ∈ p1ExemptStatuses) then ""
    else "P1 Status: " ++ p1.fetchedInsuranceStatus

/-- What one pass of the Phase 1/2 loop leaves on a row. -/
structure RowP12Outcome where
  errorMsg : String
  p1 : Option Phase1Results
  paymentCalled : Bool
  practiceCalls : Nat
  paymentId : Option String
deriving DecidableEq

/-- One iteration of the Phase 1/2 row loop
(user.py lines 1296-1340): fetch patient and insurance, record a `P1`
message only for an error or a non-exempt status, then attempt the
payment only when batch, amount and source are present and the cleaned
amount parses to a positive number; `P2 Skipped:` messages are
suppressed.  The final `Error` cell is the semicolon-join of the
collected messages. -/
def processRowP12 (inp : RowInputs) (p1resp : Phase1ApiResult)
    (pracResp : PracticesApiResult) (payResp : PaymentApiResult)
    (cache : PracticeCache) : RowP12Outcome × PracticeCache :=
  let patientId := pyStrip inp.patientId
  let practiceName := pyStrip inp.practice
  let dosStr := pyStrip inp.dos
  if patientId = "" ∨ practiceName = "" then
    ({ errorMsg := "Skipped (Ph1/2): Patient ID or Practice Name missing.",
       p1 := none, paymentCalled := false, practiceCalls := 0, paymentId := none },
     cache)
  else
    let p1 := phase1_fetch_patient_and_insurance patientId dosStr p1resp
    let p1msg := p1MsgOf p1
    let pp := pyStrip inp.ppBatch
    let amt := pyStrip inp.patientPayment
    let src := pyStrip inp.paymentSource
    let refn := pyStrip inp.referenceNumber
    let amountPos : Bool :=
      match parseDecimal (cleanAmount amt) with
      | some a => decide (0 < a.num)
      | none => false
    let attempt := presentVal pp && presentVal amt && presentVal src && amountPos
    if attempt then
      match get_practice_id_by_name practiceName pracResp cache with
      | (none, cache2, n) =>
        let msgs := [p1msg,
          "P2 Error: Tebra Practice ID for \x27" ++ practiceName ++ "\x27 (payment) not found."]
        ({ errorMsg := pyStripSemiSpace (joinWith "; " (msgs.filter (· ≠ ""))),
           p1 := some p1, paymentCalled := false, practiceCalls := n, paymentId := none },
         cache2)
      | (some prid, cache2, n) =>
        let pay := phase2_post_tebra_payment patientId prid practiceName pp amt src refn payResp
        let msgs := [p1msg] ++
          (if startsWithS pay.simpleMessage "P2 Skipped:" then [] else [pay.simpleMessage])
        ({ errorMsg := pyStripSemiSpace (joinWith "; " (msgs.filter (· ≠ ""))),
           p1 := some p1, paymentCalled := true, practiceCalls := n,
           paymentId := if pay.success then pay.paymentID else none },
         cache2)
    else
      ({ errorMsg := pyStripSemiSpace (joinWith "; " ([p1msg].filter (· ≠ ""))),
         p1 := some p1, paymentCalled := false, practiceCalls := 0, paymentId := none },
       cache)

/-- The Phase 3 grouping filter of user.py line 1361: a row joins a group
only when patient id, DOS, practice and the fetched patient name are all
non-blank. -/
def groupEligible (inp : RowInputs) (patientNameCell : Option String) : Bool :=
  pyStrip inp.patientId ≠ "" && pyStrip inp.dos ≠ "" && pyStrip inp.practice ≠ ""
    && (match patientNameCell with
        | some n => pyStrip n ≠ ""
        | none => false)

/-! ### Orchestrator: Phase 3 message propagation (user.py lines 1394-1405) -/

/-- The deduplication condition of user.py lines 1402-1404: the new
message is dropped only when it reports the created encounter and some
existing message already mentions that encounter id. -/
def p3MessageSkipped (allMsgs : List String) (p3simple : String)
    (encounterId : Option String) : Bool :=
  if p3simple = "" then true
  else
    match encounterId with
    | none => false
    | some id =>
      let tag := "Encounter #" ++ id
      if containsS p3simple tag then allMsgs.any (fun m => containsS m tag)
      else false

/-- The message list of user.py lines 1398-1399 for one row. -/
def propagateAllMsgs (existing : String) : List String :=
  if pyStrip existing ≠ "" then splitClean (pyStrip existing) else []

/-- The skip condition applied to one row, as a function of the raw
inputs. -/
def propagateSkipCond (existing p3simple : String) (encounterId : Option String) : Bool :=
  p3MessageSkipped (propagateAllMsgs existing) p3simple encounterId

/-- The message merge of user.py lines 1398-1405: split the existing cell
on semicolons, append the stripped Phase 3 message unless the
deduplication condition holds, and re-join. -/
def propagateP3Message (existing p3simple : String) (encounterId : Option String) : String :=
  let allMsgs := propagateAllMsgs existing
  let allMsgs2 :=
    if p3MessageSkipped allMsgs p3simple encounterId then allMsgs
    else allMsgs ++ [pyStrip p3simple]
  pyStripSemiSpace (joinWith "; " (allMsgs2.filter (· ≠ "")))

/-! ### Error-message simplifier (user.py lines 849-891)

The source drives this with `re`; each regex is realised here by a
dedicated scanner with the same match semantics on the inputs the remote
service produces (lazy groups become "first following occurrence",
`[^<]+` becomes "non-empty run up to the next `<`"). -/

/-- Characters up to (excluding) the first occurrence of `stop`, plus the
rest (starting at `stop` when present). -/
def readUntil (stop : Char) : List Char → List Char × List Char
  | [] => ([], [])
  | c :: cs =>
    if c = stop then ([], c :: cs)
    else
      let r := readUntil stop cs
      (c :: r.1, r.2)

/-- Leading digit run and the rest. -/
def readDigits : List Char → List Char × List Char
  | [] => ([], [])
  | c :: cs =>
    if c.isDigit then
      let r := readDigits cs
      (c :: r.1, r.2)
    else ([], c :: cs)

/-- `re.findall(r"<ServiceLine>(.*?)</ServiceLine>", s, re.DOTALL)`
realised for the two fixed tags: repeatedly take the text between the
next open tag and the nearest close tag after it. -/
def findAllBlocks (openTag closeTag : List Char) : Nat → List Char → List (List Char)
  | 0, _ => []
  | fuel + 1, s =>
    match findSplitL openTag s with
    | none => []
    | some (_, rest) =>
      match findSplitL closeTag rest with
      | none => []
      | some (content, rest2) => content :: findAllBlocks openTag closeTag fuel rest2

/-- `re.search(r"<ProcedureCode>(?P<v>[^<]+)</ProcedureCode>", s)`. -/
def findProcCodeGo : Nat → List Char → Option (List Char)
  | 0, _ => none
  | fuel + 1, s =>
    match findSplitL ("<ProcedureCode>".data) s with
    | none => none
    | some (_, rest) =>
      let r := readUntil '<' rest
      if r.1 ≠ [] ∧ isPrefixL ("</ProcedureCode>".data) r.2 then some r.1
      else findProcCodeGo fuel rest

/-- Entry point of the procedure-code search inside one service line. -/
def findProcCode (s : List Char) : Option (List Char) :=
  findProcCodeGo s.length s

/-- `re.finditer` for the per-field error patterns
`<DiagnosisCodeN>code<err id="K">msg</err>` and
`<ProcedureModifierN>code<err id="K">msg</err>` (user.py lines 857-858):
the open tag is followed by one digit, `>`, a non-empty `<`-free code, the
error marker with a digit id, and a non-empty `<`-free message. -/
def findFieldErrorsGo (tag : List Char) : Nat → List Char →
    List (Char × List Char × List Char)
  | 0, _ => []
  | fuel + 1, s =>
    match findSplitL tag s with
    | none => []
    | some (_, rest) =>
      match rest with
      | d :: '>' :: rest2 =>
        if d.isDigit then
          let rv := readUntil '<' rest2
          if rv.1 ≠ [] ∧ isPrefixL ("<err id=\"".data) rv.2 then
            let ri := readDigits (rv.2.drop 9)
            if ri.1 ≠ [] ∧ isPrefixL ("\">".data) ri.2 then
              let rm := readUntil '<' (ri.2.drop 2)
              if rm.1 ≠ [] ∧ isPrefixL ("</err>".data) rm.2 then
                (d, rv.1, rm.1) :: findFieldErrorsGo tag fuel rm.2
              else findFieldErrorsGo tag fuel rest
            else findFieldErrorsGo tag fuel rest
          else findFieldErrorsGo tag fuel rest
        else findFieldErrorsGo tag fuel rest
      | _ => findFieldErrorsGo tag fuel rest

/-- `re.finditer(r"<err id=\"(\d+)\">(.*?)</err>", s, ...)` returning for
each match the id digits, the message and the remainder after the
closing tag. -/
def findGeneralErrsGo : Nat → List Char → List (List Char × List Char × List Char)
  | 0, _ => []
  | fuel + 1, s =>
    match findSplitL ("<err id=\"".data) s with
    | none => []
    | some (_, rest) =>
      let ri := readDigits rest
      if ri.1 ≠ [] ∧ isPrefixL ("\">".data) ri.2 then
        match findSplitL ("</err>".data) (ri.2.drop 2) with
        | some (msg, rest3) => (ri.1, msg, rest3) :: findGeneralErrsGo fuel rest3
        | none => findGeneralErrsGo fuel rest
      else findGeneralErrsGo fuel rest

/-- The provider / service-location patterns of user.py lines 862-867:
`<Tag>.*?<err id="(\d+)">(.*?)</err>.*?</Tag>` — the first error marker
after the open tag, provided the close tag occurs later. -/
def findTagErrClause (tagName : String) (s : List Char) : List String :=
  match findSplitL ("<" ++ tagName ++ ">").data s with
  | none => []
  | some (_, rest) =>
    match findGeneralErrsGo rest.length rest with
    | [] => []
    | e :: _ =>
      if containsL ("</" ++ tagName ++ ">").data e.2.2 then
        [tagName ++ " Err(ID:" ++ String.mk e.1 ++ "): " ++ pyStrip (String.mk e.2.1)]
      else []

/-- The pattern of user.py line 880:
`<ServiceLines>.*?<err id="(\d+)">(.*?)</err>(?!.*</ServiceLine>)` — the
first error after `<ServiceLines>` not followed by any further
`</ServiceLine>`. -/
def overallServiceLinesClause (s : List Char) : List String :=
  match findSplitL ("<ServiceLines>".data) s with
  | none => []
  | some (_, rest) =>
    match (findGeneralErrsGo rest.length rest).find?
        (fun e => !containsL ("</ServiceLine>".data) e.2.2) with
    | some e =>
      ["ServiceLines Overall Err(ID:" ++ String.mk e.1 ++ "): "
        ++ pyStrip (String.mk e.2.1) ++ "."]
    | none => []

/-- The pattern of user.py line 884:
`<Encounter[^>]*>.*?<err id="(\d+)">(.*?)</err>`. -/
def encounterTopErr (s : List Char) : Option (List Char × List Char) :=
  match findSplitL ("<Encounter".data) s with
  | none => none
  | some (_, rest) =>
    let ra := readUntil '>' rest
    match ra.2 with
    | '>' :: rest2 =>
      match findGeneralErrsGo rest2.length rest2 with
      | e :: _ => some (e.1, e.2.1)
      | [] => none
    | _ => none

/-- `msg.split(',')[0].strip()`. -/
def firstCommaPart (s : String) : String :=
  match splitOnPred (· = ',') s.data with
  | g :: _ => pyStrip (String.mk g)
  | [] => ""

/-- The clauses produced for one `<ServiceLine>` block
(user.py lines 871-878): diagnosis errors, then modifier errors, then —
only when neither kind matched — the generic errors of the block. -/
def simplifyServiceLineBlock (idx : Nat) (b : List Char) : List String :=
  let pc :=
    match findProcCode b with
    | some v => String.mk v
    | none => "N/A"
  let diags := (findFieldErrorsGo ("<DiagnosisCode".data) b.length b).map (fun e =>
    "L" ++ toString idx ++ "(Proc " ++ pc ++ "): Diag" ++ String.singleton e.1
      ++ " (\x27" ++ String.mk e.2.1 ++ "\x27) - " ++ firstCommaPart (String.mk e.2.2) ++ ".")
  let mods := (findFieldErrorsGo ("<ProcedureModifier".data) b.length b).map (fun e =>
    "L" ++ toString idx ++ "(Proc " ++ pc ++ "): Mod" ++ String.singleton e.1
      ++ " (\x27" ++ String.mk e.2.1 ++ "\x27) - " ++ firstCommaPart (String.mk e.2.2)
      ++ (if containsL (".0".data) e.2.1 then " (No .0)" else "") ++ ".")
  let gens :=
    if diags = [] ∧ mods = [] then
      (findGeneralErrsGo b.length b).map (fun e =>
        "L" ++ toString idx ++ "(Proc " ++ pc ++ "): " ++ pyStrip (String.mk e.2.1) ++ ".")
    else []
  diags ++ mods ++ gens

/-- Clauses for every service-line block, numbered from 1. -/
def simplifyBlocks (idx : Nat) : List (List Char) → List String
  | [] => []
  | b :: rest => simplifyServiceLineBlock idx b ++ simplifyBlocks (idx + 1) rest

/-- `unique_errors` of user.py line 889: keep the first occurrence of each
clause. -/
def dedupeAux (seen : List String) : List String → List String
  | [] => []
  | x :: rest =>
    if decide (x ∈ seen) then dedupeAux seen rest
    else x :: dedupeAux (x :: seen) rest

/-- Order-preserving deduplication. -/
def dedupe (l : List String) : List String := dedupeAux [] l

/-- `parse_tebra_xml_error_phase3` (user.py lines 849-891) on string
input. -/
def parse_tebra_xml_error_phase3 (xml : String) : String :=
  if xml = "" then "Unknown error."
  else if ¬(containsS xml "<Encounter" ∨ containsS xml "<err " ∨ containsS xml "<Error>") then
    (if pyStrip xml ≠ "" then pyStrip xml else "Encounter error (non-XML).")
  else
    let xml1 := if startsWithS xml "API Error: " then pyStrip (dropStr 11 xml) else xml
    let d := xml1.data
    let errs0 :=
      findTagErrClause "ReferringProvider" d ++ findTagErrClause "RenderingProvider" d
        ++ findTagErrClause "ServiceLocation" d
    let slClauses :=
      simplifyBlocks 1 (findAllBlocks ("<ServiceLine>".data) ("</ServiceLine>".data) d.length d)
    let errs1 := errs0 ++ slClauses ++ overallServiceLinesClause d
    let errs2 :=
      if errs1 = [] then
        match encounterTopErr d with
        | some e =>
          ["Encounter Level Err(ID:" ++ String.mk e.1 ++ "): " ++ pyStrip (String.mk e.2) ++ "."]
        | none =>
          if containsS xml1 "<Encounter" then ["Enc creation failed (unparsed XML error)."]
          else []
      else errs1
    if errs2 = [] then
      (if strLen xml1 > 250 then takeStr 250 (pyStrip xml1) ++ "..." else pyStrip xml1)
    else joinWith "; " (dedupe errs2)

/-! ### Concrete inputs used by the claim theorems -/

/-- Policy `{start: 2024-01-01, end: 2024-06-30}` of the claim example. -/
def examplePolicyA : InsurancePolicy :=
  { effectiveStartDate := some 20240101, effectiveEndDate := some 20240630,
    planName := "Plan A", number := "IDA" }

/-- Policy `{start: 2024-07-01, end: null}` of the claim example. -/
def examplePolicyB : InsurancePolicy :=
  { effectiveStartDate := some 20240701, effectiveEndDate := none,
    planName := "Plan B", number := "IDB" }

/-- A second policy with no end date and an early start, used to show that
the first active policy wins. -/
def examplePolicyC : InsurancePolicy :=
  { effectiveStartDate := some 20240101, effectiveEndDate := none,
    planName := "Plan C", number := "IDC" }

/-- A patient whose primary case carries the two claim-example policies. -/
def examplePatient : PatientPayload :=
  { firstName := "Jane", lastName := "Roe", dob := none,
    cases := [{ isPrimaryCase := true, policies := [examplePolicyA, examplePolicyB] }] }

/-- A fully valid service-line row. -/
def validRow : SLRow :=
  { procedures := .str "99213", units := .str "1", diag1 := .str "Z00",
    mod1 := .str "25", mod2 := .absent, mod3 := .absent, mod4 := .absent,
    diag2 := .str "Z01", diag3 := .absent, diag4 := .absent }

/-- A row identical in shape but with `Units` equal to `"0"`. -/
def zeroUnitsRow : SLRow :=
  { procedures := .str "99214", units := .str "0", diag1 := .str "Z00",
    mod1 := .absent, mod2 := .absent, mod3 := .absent, mod4 := .absent,
    diag2 := .absent, diag3 := .absent, diag4 := .absent }

/-- A processed row with valid Phase 1/2 identifiers but a blank DOS and
no payment inputs. -/
def c5Row : RowInputs :=
  { patientId := "123", practice := "Acme Clinic", dos := "",
    ppBatch := "", patientPayment := "", paymentSource := "", referenceNumber := "" }

/-- The patient returned for that row. -/
def c5Patient : PatientPayload :=
  { firstName := "John", lastName := "Doe", dob := none, cases := [] }

/-- A row whose Phase 1 exchange fails with an API error (used to witness
that recorded outcomes yield a non-blank message). -/
def c5BadRow : RowInputs :=
  { patientId := "123", practice := "Acme", dos := "2024-01-05",
    ppBatch := "", patientPayment := "", paymentSource := "", referenceNumber := "" }

/-- A Phase 1/2 row whose payment amount is `"0"` with batch and source
present. -/
def c7Row : RowInputs :=
  { patientId := "100", practice := "Acme", dos := "2024-01-05",
    ppBatch := "B1", patientPayment := "0", paymentSource := "CASH", referenceNumber := "" }

/-- The practice record used by the orchestrator examples. -/
def c7Practice : PracticeData :=
  { practiceName := "Acme", id := "9", active := true }

/-- A clean successful payment response. -/
def c7PayResp : CreatePaymentResponse :=
  { errorMessage := none, securityResult := none, paymentID := some 5 }

/-- The five-token provider query of the C3 counterexample. -/
def c3Query : String := "alpha beta gamma delta epsilon"

/-- An active acceptable-type candidate sharing four of the five query
tokens. -/
def c3Candidate : ProviderData :=
  { active := true, fullName := "alpha beta gamma delta zeta",
    ptype := "physician", id := "77", npi := "" }

/-! ## Theorems -/

set_option maxRecDepth 16000

/-! ### Supporting lemmas -/

theorem strData_append (a b : String) : (a ++ b).data = a.data ++ b.data := rfl

theorem strData_mk (l : List Char) : (String.mk l).data = l := rfl

/-! ### C10: totality of the encounter-status mapper -/

/-- C10: the encounter-status mapper is total: a missing or blank status
code maps to `Status N/A`, a non-blank code found in the fixed 8-entry
table (after trimming) maps to its table entry, and any other code maps
to `Unknown Code (<code>)` — with the raw, untrimmed code echoed — rather
than failing. -/
theorem C10_status_mapper_total :
    map_encounter_status_code none = "Status N/A"
    ∧ map_encounter_status_code (some "   ") = "Status N/A"
    ∧ map_encounter_status_code (some "0") = "Undefined"
    ∧ map_encounter_status_code (some "1") = "Draft"
    ∧ map_encounter_status_code (some "2") = "Review"
    ∧ map_encounter_status_code (some "3") = "Approved"
    ∧ map_encounter_status_code (some "4") = "Rejected"
    ∧ map_encounter_status_code (some "5") = "Billed"
    ∧ map_encounter_status_code (some "6") = "Unpayable"
    ∧ map_encounter_status_code (some "7") = "Pending"
    ∧ map_encounter_status_code (some " 3 ") = "Approved"
    ∧ map_encounter_status_code (some "9") = "Unknown Code (9)"
    ∧ map_encounter_status_code (some " 9 ") = "Unknown Code ( 9 )"
    ∧ (∀ s : String,
        map_encounter_status_code (some s) = "Status N/A"
        ∨ (pyStrip s, map_encounter_status_code (some s)) ∈ ENCOUNTER_STATUS_CODE_MAP_PHASE3
        ∨ map_encounter_status_code (some s) = "Unknown Code (" ++ s ++ ")") := by
  refine ⟨rfl, by decide, by decide, by decide, by decide, by decide, by decide, by decide,
    by decide, by decide, by decide, by decide, by decide, ?_⟩
  intro s
  by_cases hb : pyStrip s = ""
  · left; simp [map_encounter_status_code, hb]
  · rcases hf : (ENCOUNTER_STATUS_CODE_MAP_PHASE3.find? (fun e => e.1 = pyStrip s)) with _ | e
    · right; right; simp [map_encounter_status_code, hb, hf]
    · right; left
      have hmem := List.mem_of_find?_eq_some hf
      have hkey : e.1 = pyStrip s := by
        have := List.find?_some hf
        exact of_decide_eq_true this
      have hval : map_encounter_status_code (some s) = e.2 := by
        simp [map_encounter_status_code, hb, hf]
      rw [hval]
      have hpair : (pyStrip s, e.2) = e := by
        rcases e with ⟨k, v⟩
        simp only at hkey
        simp [hkey]
      rw [hpair]
      exact hmem

/-! ### C6: Phase 2 success condition -/

/-- C6: Phase 2 payment posting reports success iff the response carries a
positive numeric payment id and neither an error flag nor an
authorization failure; a response with neither an id nor an error is
recorded as an unclear failure with `Success` false, never promoted to
success. -/
theorem C6_payment_success_iff :
    (∀ r : CreatePaymentResponse,
      (processPaymentResponse r).success = true ↔
        r.errorMessage = none ∧ r.securityResult = none
          ∧ ∃ n : Int, r.paymentID = some n ∧ 0 < n)
    ∧ processPaymentResponse { errorMessage := none, securityResult := none, paymentID := none } =
        { success := false,
          message := "Payment response from Tebra unclear (no PaymentID or error).",
          simpleMessage := "P2 Status Unknown (Tebra resp unclear).",
          paymentID := none, calledRemote := true }
    ∧ (∀ r : CreatePaymentResponse,
        (phase2_post_tebra_payment "100" "5" "Acme" "B1" "10" "CASH" "" (.resp r)).success =
          (processPaymentResponse r).success) := by
  refine ⟨?_, rfl, fun r => rfl⟩
  rintro ⟨em, sec, pid⟩
  cases em <;> cases sec <;> cases pid <;>
    simp [processPaymentResponse]
  case none.none.some n =>
    by_cases h : 0 < n <;> simp [h]

/-! ### C8: the error-message simplifier -/

/-- C8: the simplifier yields one semicolon-joined clause per distinct
offending field, tagged with the service-line ordinal and truncated to
the first comma-delimited part of the message; on the claim input it
returns exactly `L1(Proc 99213): Diag1 ('Z00') - Invalid code.`; a second
service line yields a second `L2`-tagged clause joined by `; `, and two
errors reducing to the same clause are reported once. -/
theorem C8_simplifier_example :
    parse_tebra_xml_error_phase3
        "<ServiceLine><ProcedureCode>99213</ProcedureCode><DiagnosisCode1>Z00<err id=\"5\">Invalid code, see manual</err></DiagnosisCode1></ServiceLine>" =
      "L1(Proc 99213): Diag1 (\x27Z00\x27) - Invalid code."
    ∧ parse_tebra_xml_error_phase3
        "<ServiceLine><ProcedureCode>99213</ProcedureCode><DiagnosisCode1>Z00<err id=\"5\">Invalid code, see manual</err></DiagnosisCode1></ServiceLine><ServiceLine><ProcedureCode>99214</ProcedureCode><ProcedureModifier1>25.0<err id=\"7\">Bad modifier, fix</err></ProcedureModifier1></ServiceLine>" =
      "L1(Proc 99213): Diag1 (\x27Z00\x27) - Invalid code.; L2(Proc 99214): Mod1 (\x2725.0\x27) - Bad modifier (No .0)."
    ∧ parse_tebra_xml_error_phase3
        "<ServiceLine><ProcedureCode>99213</ProcedureCode><DiagnosisCode1>Z00<err id=\"5\">Invalid code, see manual</err></DiagnosisCode1><DiagnosisCode1>Z00<err id=\"6\">Invalid code, again</err></DiagnosisCode1></ServiceLine>" =
      "L1(Proc 99213): Diag1 (\x27Z00\x27) - Invalid code." := by
  refine ⟨by decide, by decide, by decide⟩

/-! ### C1: Phase 1 first-active-policy selection -/

/-- C1: the policy-activity test of the code coincides with the
activity condition stated by the claim, the scan takes the first active
policy in returned order (equations two and three), the status is
`Active` exactly when some policy is active and otherwise records that no
primary active insurance was found, and on the claim example the DOS
`2024-08-01` selects the second policy while `2024-03-01` selects the
first. -/
theorem C1_phase1_first_active_policy :
    (∀ dos p, isActiveOnDos dos p = specActiveOnDos dos p)
    ∧ (∀ dos, selectInsurance dos [] =
        { name := none, id := none, status := "No Primary Active Ins. Found" })
    ∧ (∀ dos p ps, selectInsurance dos (p :: ps) =
        if isActiveOnDos dos p then
          { name := some (pyStrip p.planName), id := some (pyStrip p.number),
            status := "Active" }
        else selectInsurance dos ps)
    ∧ (∀ dos ps, (selectInsurance dos ps).status =
        if ps.any (isActiveOnDos dos) then "Active" else "No Primary Active Ins. Found")
    ∧ (phase1_fetch_patient_and_insurance "500" "2024-08-01"
          (.ok (some examplePatient))).fetchedInsuranceName = some "Plan B"
    ∧ (phase1_fetch_patient_and_insurance "500" "2024-08-01"
          (.ok (some examplePatient))).fetchedInsuranceID = some "IDB"
    ∧ (phase1_fetch_patient_and_insurance "500" "2024-08-01"
          (.ok (some examplePatient))).fetchedInsuranceStatus = "Active"
    ∧ (phase1_fetch_patient_and_insurance "500" "2024-03-01"
          (.ok (some examplePatient))).fetchedInsuranceName = some "Plan A"
    ∧ (phase1_fetch_patient_and_insurance "500" "2024-03-01"
          (.ok (some examplePatient))).fetchedInsuranceStatus = "Active"
    ∧ selectInsurance 20240301 [examplePolicyA, examplePolicyC] =
        { name := some "Plan A", id := some "IDA", status := "Active" } := by
  refine ⟨?_, fun dos => rfl, fun dos p ps => rfl, ?_, by decide, by decide, by decide,
    by decide, by decide, by decide⟩
  · intro dos p
    rcases p with ⟨hs, he, pn, num⟩
    cases hs <;> cases he <;>
      simp only [isActiveOnDos, specActiveOnDos, Option.isSome, Option.isNone,
        Bool.true_and, Bool.false_and, Bool.and_true, Bool.and_false,
        Bool.true_or, Bool.false_or, Bool.or_true, Bool.or_false] <;>
      first
        | rfl
        | (rename_i s
           by_cases hsd : s ≤ dos <;> simp [hsd])
  · intro dos ps
    induction ps with
    | nil => rfl
    | cons p rest ih =>
      by_cases h : isActiveOnDos dos p
      · simp [selectInsurance, h]
      · simp only [selectInsurance, h, if_neg, List.any_cons]
        simp [h, ih]

/-! ### C2: any invalid service line aborts the whole group -/

theorem buildGroup_valid (rows : List (Nat × SLRow)) (acc : List ServiceLinePayload)
    (h : rows.all (fun r => (create_service_line_payload_phase3 r.2).isSome) = true) :
    buildGroupServiceLinesGo acc rows =
      (if acc.reverse ++ rows.filterMap (fun r => create_service_line_payload_phase3 r.2) = []
       then .aborted "Enc Error: No valid service lines."
       else .submitted
         (acc.reverse ++ rows.filterMap (fun r => create_service_line_payload_phase3 r.2))) := by
  induction rows generalizing acc with
  | nil =>
    simp only [buildGroupServiceLinesGo, List.filterMap_nil, List.append_nil]
    by_cases ha : acc = []
    · simp [ha]
    · have : acc.reverse ≠ [] := by
        simpa using ha
      simp [ha, this]
  | cons r rest ih =>
    rcases r with ⟨n, row⟩
    simp only [List.all_cons, Bool.and_eq_true] at h
    rcases hp : create_service_line_payload_phase3 row with _ | p
    · rw [hp] at h
      simp at h
    · simp only [buildGroupServiceLinesGo, hp]
      rw [ih (p :: acc) h.2]
      simp [hp]

theorem buildGroup_invalid (rows : List (Nat × SLRow)) (acc : List ServiceLinePayload)
    (h : rows.all (fun r => (create_service_line_payload_phase3 r.2).isSome) = false) :
    ∃ msg, buildGroupServiceLinesGo acc rows = .aborted msg := by
  induction rows generalizing acc with
  | nil => simp at h
  | cons r rest ih =>
    rcases r with ⟨n, row⟩
    simp only [List.all_cons, Bool.and_eq_false_iff] at h
    rcases hp : create_service_line_payload_phase3 row with _ | p
    · exact ⟨"Enc Error: Failed service line from Excel row " ++ toString n ++ ".",
        by simp [buildGroupServiceLinesGo, hp]⟩
    · rcases h with h | h
      · rw [hp] at h
        simp at h
      · simpa [buildGroupServiceLinesGo, hp] using ih (p :: acc) h

/-- C2: the group service-line stage submits an encounter request iff the
group is non-empty and every row passes service-line validation, and the
submitted lines are exactly the rows' payloads — so a group containing
any failing row (for example a row with `Units = "0"`) is aborted with an
error message and no partial encounter is ever submitted. -/
theorem C2_row_failure_aborts_group :
    (∀ (rows : List (Nat × SLRow)) (ls : List ServiceLinePayload),
      buildGroupServiceLines rows = .submitted ls ↔
        (rows ≠ []
          ∧ rows.all (fun r => (create_service_line_payload_phase3 r.2).isSome) = true
          ∧ ls = rows.filterMap (fun r => create_service_line_payload_phase3 r.2)))
    ∧ buildGroupServiceLines [(2, validRow), (3, zeroUnitsRow)] =
        .aborted "Enc Error: Failed service line from Excel row 3."
    ∧ (create_service_line_payload_phase3 validRow).isSome = true
    ∧ create_service_line_payload_phase3 zeroUnitsRow = none := by
  refine ⟨?_, by decide, by decide, by decide⟩
  intro rows ls
  constructor
  · intro hsub
    by_cases hv : rows.all (fun r => (create_service_line_payload_phase3 r.2).isSome) = true
    · have := buildGroup_valid rows [] hv
      rw [buildGroupServiceLines] at hsub
      rw [this] at hsub
      by_cases hfm : rows.filterMap (fun r => create_service_line_payload_phase3 r.2) = []
      · simp [hfm] at hsub
      · simp only [List.reverse_nil, List.nil_append, hfm, if_neg] at hsub
        have hls : ls = rows.filterMap (fun r => create_service_line_payload_phase3 r.2) :=
          (GroupAction.submitted.injEq _ _).mp hsub.symm
        refine ⟨?_, hv, hls⟩
        rintro rfl
        simp at hfm
    · rcases buildGroup_invalid rows [] (Bool.not_eq_true _ ▸ (by simpa using hv)) with ⟨msg, habort⟩
      rw [buildGroupServiceLines] at hsub
      rw [habort] at hsub
      cases hsub
  · rintro ⟨hne, hv, rfl⟩
    have := buildGroup_valid rows [] hv
    rw [buildGroupServiceLines, this]
    have hfm : rows.filterMap (fun r => create_service_line_payload_phase3 r.2) ≠ [] := by
      rcases rows with _ | ⟨⟨n, row⟩, rest⟩
      · exact absurd rfl hne
      · simp only [List.all_cons, Bool.and_eq_true] at hv
        rcases hp : create_service_line_payload_phase3 row with _ | p
        · rw [hp] at hv
          simp at hv
        · simp [hp]
    simp [hfm]

/-! ### C3: provider fuzzy-match scoring -/

theorem flexScore_cons (t : String) (ts cand : List String) :
    flexScore (t :: ts) cand =
      if flexMatchCount (t :: ts) cand = (t :: ts).length then 100 else 0 := by
  unfold flexScore
  by_cases h : flexMatchCount (t :: ts) cand = (t :: ts).length
  · rw [if_pos ⟨List.cons_ne_nil t ts, h⟩, if_pos h, h]
    have hlen : 0 < (t :: ts).length := by simp
    have hne : (((t :: ts).length : Nat) : ℚ) ≠ 0 := by exact_mod_cast hlen.ne'
    rw [div_self hne, one_mul]
  · rw [if_neg (fun hc => h hc.2), if_neg h]

theorem flexScore_eq_zero_or_100 (terms cand : List String) :
    flexScore terms cand = 0 ∨ flexScore terms cand = 100 := by
  cases terms with
  | nil => left; simp [flexScore]
  | cons t ts =>
    rw [flexScore_cons]
    by_cases h : flexMatchCount (t :: ts) cand = (t :: ts).length
    · right; rw [if_pos h]
    · left; rw [if_neg h]

theorem flexScore_ge80_iff (terms cand : List String) :
    ((80 : ℚ) ≤ flexScore terms cand) ↔
      (terms ≠ [] ∧ flexMatchCount terms cand = terms.length) := by
  cases terms with
  | nil =>
    simp only [flexScore, ne_eq, not_true_eq_false, false_and, if_false]
    norm_num
  | cons t ts =>
    rw [flexScore_cons]
    by_cases h : flexMatchCount (t :: ts) cand = (t :: ts).length
    · rw [if_pos h]
      simp only [h, and_true]
      constructor
      · intro _; exact List.cons_ne_nil t ts
      · intro _; norm_num
    · rw [if_neg h]
      constructor
      · intro hle; norm_num at hle
      · rintro ⟨_, hc⟩; exact absurd hc h

theorem flexEntry_of_pred (terms : List String) (p : ProviderData)
    (h : flexFirstPred terms p = true) :
    flexEntry terms p = some (pyStrip p.id, 100) := by
  unfold flexFirstPred at h
  simp only [Bool.and_eq_true, decide_eq_true_eq] at h
  obtain ⟨⟨hok, hne⟩, hcover⟩ := h
  have hge : (80 : ℚ) ≤ flexScore terms (candidateTerms (pyStrip p.fullName)) :=
    (flexScore_ge80_iff _ _).mpr ⟨hne, hcover⟩
  have h100 : flexScore terms (candidateTerms (pyStrip p.fullName)) = 100 := by
    rcases flexScore_eq_zero_or_100 terms (candidateTerms (pyStrip p.fullName)) with h0 | h0
    · rw [h0] at hge; norm_num at hge
    · exact h0
  unfold flexEntry
  rw [if_pos hok]
  simp only [h100]
  rw [if_pos (by norm_num : (80 : ℚ) ≤ 100)]

theorem flexEntry_of_not_pred (terms : List String) (p : ProviderData)
    (h : flexFirstPred terms p = false) :
    flexEntry terms p = none := by
  unfold flexFirstPred at h
  unfold flexEntry
  by_cases hok : rsTypeOk p = true
  · rw [if_pos hok]
    simp only [hok, Bool.true_and, Bool.and_eq_false_iff, decide_eq_false_iff_not] at h
    have hnacc : ¬((80 : ℚ) ≤ flexScore terms (candidateTerms (pyStrip p.fullName))) := by
      intro hge
      obtain ⟨hne, hcover⟩ := (flexScore_ge80_iff _ _).mp hge
      rcases h with h | h
      · exact h hne
      · exact h (by exact_mod_cast hcover)
    simp only [hnacc, if_false]
  · rw [if_neg hok]

theorem flexEntry_100 (terms : List String) (p : ProviderData) (x : String × ℚ)
    (h : flexEntry terms p = some x) : x.2 = 100 := by
  by_cases hp : flexFirstPred terms p = true
  · rw [flexEntry_of_pred terms p hp] at h
    cases h
    rfl
  · rw [flexEntry_of_not_pred terms p (Bool.not_eq_true _ ▸ hp)] at h
    cases h

theorem pickFirstMax_mem (l : List (String × ℚ)) (y : String × ℚ)
    (h : pickFirstMax l = some y) : y ∈ l := by
  induction l with
  | nil => cases h
  | cons x rest ih =>
    rcases hr : pickFirstMax rest with _ | z
    · simp only [pickFirstMax, hr] at h
      cases h
      exact List.mem_cons_self _ _
    · simp only [pickFirstMax, hr] at h
      by_cases hz : z.2 > x.2
      · rw [if_pos hz] at h
        cases h
        exact List.mem_cons_of_mem _ (ih hr)
      · rw [if_neg hz] at h
        cases h
        exact List.mem_cons_self _ _

theorem pickFirstMax_cons_all100 (x : String × ℚ) (l : List (String × ℚ))
    (hx : x.2 = 100) (hl : ∀ y ∈ l, y.2 = 100) :
    pickFirstMax (x :: l) = some x := by
  rcases hr : pickFirstMax l with _ | z
  · simp only [pickFirstMax, hr]
  · have hz : z.2 = 100 := hl z (pickFirstMax_mem l z hr)
    simp only [pickFirstMax, hr]
    rw [if_neg (by rw [hz, hx]; exact lt_irrefl _)]

theorem pickFlex_eq_findFlex (terms : List String) (ps : List ProviderData) :
    (pickFirstMax (ps.filterMap (flexEntry terms))).map (·.1) =
      (ps.find? (flexFirstPred terms)).map (fun p => pyStrip p.id) := by
  induction ps with
  | nil => rfl
  | cons p rest ih =>
    rw [List.filterMap_cons]
    by_cases hp : flexFirstPred terms p = true
    · rw [flexEntry_of_pred terms p hp, List.find?_cons_of_pos _ hp]
      have hall : ∀ y ∈ rest.filterMap (flexEntry terms), y.2 = 100 := by
        intro y hy
        rcases List.mem_filterMap.mp hy with ⟨q, _, hq⟩
        exact flexEntry_100 terms q y hq
      rw [pickFirstMax_cons_all100 _ _ rfl hall]
      rfl
    · rw [flexEntry_of_not_pred terms p (Bool.not_eq_true _ ▸ hp),
        List.find?_cons_of_neg _ hp]
      exact ih

theorem resolver_eq_flexFirst (q : String) (ps : List ProviderData) :
    get_provider_id_by_name_phase3 q ps = getProviderIdFlexFirst q ps := by
  unfold get_provider_id_by_name_phase3 getProviderIdFlexFirst
  rcases hex : ps.find? (exactRSPred (lowerStr (pyStrip q))) with _ | p
  · simp only [hex]
    exact pickFlex_eq_findFlex (searchTermsOf (pyStrip q)) ps
  · simp only [hex]

/-- C3 counterexample: for the query `alpha beta gamma delta epsilon` and
an active acceptable-type candidate carrying four of the five query
tokens, the claim's rule — accept the highest token fraction when it is
at least 0.80 — would accept the candidate (the fraction is 4/5 ≥ 0.80),
but the code rejects it: the resolver returns no provider. -/
theorem C3_counterexample :
    specTokenFraction (nameTerms c3Query) (candidateTerms (pyStrip c3Candidate.fullName)) = 4 / 5
    ∧ ((80 : ℚ) / 100) ≤ 4 / 5
    ∧ get_provider_id_by_name_phase3 c3Query [c3Candidate] = none := by
  refine ⟨?_, by norm_num, ?_⟩
  · have h1 : flexMatchCount (nameTerms c3Query)
        (candidateTerms (pyStrip c3Candidate.fullName)) = 4 := by decide
    have h2 : (nameTerms c3Query).length = 5 := by decide
    unfold specTokenFraction
    rw [h1, h2]
    norm_num
  · rw [resolver_eq_flexFirst]
    decide

/-- C3 (amended): resolution still requires an exact case-insensitive
full-name match among active acceptable-type providers first, and the
flexible pass strips credential tokens from both names — but its score is
100 when every query token occurs among the candidate tokens and 0
otherwise, so a score of at least 0.80 is only ever reached with full
token coverage; there is no partial-coverage tier. -/
theorem C3_flexible_requires_full_coverage :
    (∀ (t : String) (ts cand : List String),
      flexScore (t :: ts) cand =
        if flexMatchCount (t :: ts) cand = (t :: ts).length then 100 else 0)
    ∧ (∀ terms cand : List String,
        (80 : ℚ) ≤ flexScore terms cand → flexMatchCount terms cand = terms.length)
    ∧ (∀ (q : String) (ps : List ProviderData),
        get_provider_id_by_name_phase3 q ps = getProviderIdFlexFirst q ps)
    ∧ get_provider_id_by_name_phase3 "JANE DOE"
        [{ active := true, fullName := "Jane Doe", ptype := "physician", id := "11", npi := "" },
         { active := true, fullName := "Jane Doe", ptype := "physician", id := "22", npi := "" }] =
        some "11"
    ∧ get_provider_id_by_name_phase3 "John Smith MD"
        [{ active := true, fullName := "Smith John Jr", ptype := "normal provider",
           id := "33", npi := "" }] = some "33"
    ∧ get_provider_id_by_name_phase3 "John Smith MD"
        [{ active := false, fullName := "John Smith MD", ptype := "physician",
           id := "44", npi := "" }] = none := by
  refine ⟨flexScore_cons, ?_, resolver_eq_flexFirst, ?_, ?_, ?_⟩
  · intro terms cand h
    exact ((flexScore_ge80_iff terms cand).mp h).2
  · rw [resolver_eq_flexFirst]; decide
  · rw [resolver_eq_flexFirst]; decide
  · rw [resolver_eq_flexFirst]; decide

/-- Witness for `C3_flexible_requires_full_coverage`. -/
theorem C3_flexible_requires_full_coverage_witness :
    flexMatchCount ["smith"] ["smith"] = (["smith"] : List String).length :=
  C3_flexible_requires_full_coverage.2.1 ["smith"] ["smith"]
    (by
      rw [flexScore_cons,
        if_pos (show flexMatchCount ["smith"] ["smith"] =
          (["smith"] : List String).length from by decide)]
      norm_num)

/-! ### C4: resolver caching -/

theorem cacheFind_insert (cache : PracticeCache) (k : String) (v : Option String)
    (h : cacheFind cache k = none) : cacheFind (cacheInsert cache k v) k = some v := by
  induction cache with
  | nil => simp [cacheFind, cacheInsert]
  | cons e rest ih =>
    by_cases hk : e.1 = k
    · exfalso
      unfold cacheFind at h
      rw [List.find?_cons_of_pos _ (by simpa using hk)] at h
      cases h
    · simp only [cacheFind, cacheInsert] at h ⊢
      rw [List.find?_cons_of_neg _ (by simpa using hk)] at h
      rw [List.cons_append, List.find?_cons_of_neg _ (by simpa using hk)]
      exact ih h

theorem get_practice_ok_shape (name : String) (ps : List PracticeData)
    (cache : PracticeCache) (h1 : pyStrip name ≠ "")
    (h2 : cacheFind cache (lowerStr (pyStrip name)) = none) :
    ∃ v, get_practice_id_by_name name (.ok ps) cache =
      (v, cacheInsert cache (lowerStr (pyStrip name)) v, 1) := by
  unfold get_practice_id_by_name
  rw [if_neg h1]
  simp only [h2]
  rcases ps with _ | ⟨p, rest⟩
  · exact ⟨none, rfl⟩
  · rcases horElse : ((practiceLoop (lowerStr (pyStrip name)) none (p :: rest)).1.orElse
      (fun _ => (practiceLoop (lowerStr (pyStrip name)) none (p :: rest)).2)) with _ | v
    · exact ⟨none, by simp only [horElse]⟩
    · exact ⟨some v, by simp only [horElse]⟩

/-- C4 counterexample: with an API-error response, resolving the same
practice name twice in one run issues two remote lookups — the error
outcome is not stored in the cache, so the claim's "at most one remote
lookup per distinct pair, every outcome cached" fails. -/
theorem C4_counterexample :
    practiceLookupTwice "Acme" (.apiError "boom") [] = 2
    ∧ get_practice_id_by_name "Acme" (.apiError "boom") [] = (none, [], 1) := by
  exact ⟨by decide, by decide⟩

/-- C4 (amended): a successful `GetPractices` response — including one
that finds no practice — is cached, so re-resolving the same name in the
same run reads the cache and makes no further remote call; but an API
error, auth error or SOAP fault returns without writing the cache, and a
repeat resolution issues a second remote lookup. -/
theorem C4_success_outcomes_cached :
    ∀ (name : String) (ps : List PracticeData) (e : String) (cache : PracticeCache),
      pyStrip name ≠ "" →
      cacheFind cache (lowerStr (pyStrip name)) = none →
      ((get_practice_id_by_name name (.ok ps) cache).2.2 = 1
        ∧ get_practice_id_by_name name (.ok ps)
            (get_practice_id_by_name name (.ok ps) cache).2.1 =
          ((get_practice_id_by_name name (.ok ps) cache).1,
           (get_practice_id_by_name name (.ok ps) cache).2.1, 0)
        ∧ get_practice_id_by_name name (.apiError e) cache = (none, cache, 1)
        ∧ get_practice_id_by_name name (.authError e) cache = (none, cache, 1)
        ∧ get_practice_id_by_name name (.fault e) cache = (none, cache, 1)
        ∧ practiceLookupTwice name (.apiError e) cache = 2) := by
  intro name ps e cache h1 h2
  obtain ⟨v, hv⟩ := get_practice_ok_shape name ps cache h1 h2
  have herr : ∀ r : PracticesApiResult,
      (r = .apiError e ∨ r = .authError e ∨ r = .fault e) →
      get_practice_id_by_name name r cache = (none, cache, 1) := by
    rintro r (rfl | rfl | rfl) <;>
      · unfold get_practice_id_by_name
        rw [if_neg h1]
        simp only [h2]
  refine ⟨by rw [hv], ?_, herr _ (Or.inl rfl), herr _ (Or.inr (Or.inl rfl)),
    herr _ (Or.inr (Or.inr rfl)), ?_⟩
  · rw [hv]
    unfold get_practice_id_by_name
    rw [if_neg h1]
    simp only [cacheFind_insert cache _ v h2]
  · unfold practiceLookupTwice
    rw [herr _ (Or.inl rfl)]
    simp only [herr _ (Or.inl rfl)]

/-- Witness for `C4_success_outcomes_cached`. -/
theorem C4_success_outcomes_cached_witness :
    (get_practice_id_by_name "Acme"
        (.ok [{ practiceName := "Acme", id := "9", active := true }]) []).2.2 = 1
    ∧ get_practice_id_by_name "Acme"
          (.ok [{ practiceName := "Acme", id := "9", active := true }])
          (get_practice_id_by_name "Acme"
            (.ok [{ practiceName := "Acme", id := "9", active := true }]) []).2.1 =
        ((get_practice_id_by_name "Acme"
            (.ok [{ practiceName := "Acme", id := "9", active := true }]) []).1,
         (get_practice_id_by_name "Acme"
            (.ok [{ practiceName := "Acme", id := "9", active := true }]) []).2.1, 0)
    ∧ get_practice_id_by_name "Acme" (.apiError "boom") [] = (none, [], 1)
    ∧ get_practice_id_by_name "Acme" (.authError "boom") [] = (none, [], 1)
    ∧ get_practice_id_by_name "Acme" (.fault "boom") [] = (none, [], 1)
    ∧ practiceLookupTwice "Acme" (.apiError "boom") [] = 2 :=
  C4_success_outcomes_cached "Acme" [{ practiceName := "Acme", id := "9", active := true }]
    "boom" [] (by decide) (by decide)

/-! ### C7: Phase 2 amount cleaning and validation -/

theorem Dec.toRat_pos (d : Dec) : 0 < d.toRat ↔ 0 < d.num := by
  have h10 : (0 : ℚ) < (10 : ℚ) ^ d.exp := by positivity
  rw [Dec.toRat, div_pos_iff]
  constructor
  · rintro (⟨h, _⟩ | ⟨_, h⟩)
    · exact_mod_cast h
    · exact absurd h10 (not_lt.mpr h.le)
  · intro h
    exact Or.inl ⟨by exact_mod_cast h, h10⟩

/-- C7: when payment posting is attempted, the amount is cleaned of
currency symbols and commas and must parse to a number strictly greater
than zero, otherwise the row receives a `P2 Invalid` amount message with
no remote payment call; `$1,234.56` normalizes to `1234.56` and is
accepted, while `0` and `-5` are rejected before any remote call — and
the orchestrator itself never even resolves the practice or calls the
payment poster for a row whose amount is `0`. -/
theorem C7_amount_validation :
    cleanAmount "$1,234.56" = "1234.56"
    ∧ (parseDecimal "1234.56").map Dec.toRat = some ((123456 : ℚ) / 100)
    ∧ (phase2_post_tebra_payment "100" "5" "Acme" "B1" "$1,234.56" "CASH" ""
        (.resp { errorMessage := none, securityResult := none, paymentID := some 77 })).calledRemote
        = true
    ∧ (phase2_post_tebra_payment "100" "5" "Acme" "B1" "0" "CASH" ""
        (.resp { errorMessage := none, securityResult := none, paymentID := some 77 })) =
      { success := false, message := "Processing not initiated.",
        simpleMessage := "P2 Invalid: Payment amount $0.00 must be > 0.",
        paymentID := none, calledRemote := false }
    ∧ (phase2_post_tebra_payment "100" "5" "Acme" "B1" "-5" "CASH" ""
        (.resp { errorMessage := none, securityResult := none, paymentID := some 77 })) =
      { success := false, message := "Processing not initiated.",
        simpleMessage := "P2 Invalid: Payment amount $-5.00 must be > 0.",
        paymentID := none, calledRemote := false }
    ∧ (∀ (pid prid pname pp amt src ref : String) (api : PaymentApiResult),
        (phase2_post_tebra_payment pid prid pname pp amt src ref api).calledRemote = true →
        ∃ a : Dec, parseDecimal (cleanAmount amt) = some a ∧ 0 < a.toRat)
    ∧ (processRowP12 c7Row (.ok (some c5Patient)) (.ok [c7Practice])
          (.resp c7PayResp) []).1.paymentCalled = false
    ∧ (processRowP12 c7Row (.ok (some c5Patient)) (.ok [c7Practice])
          (.resp c7PayResp) []).1.practiceCalls = 0 := by
  refine ⟨by decide, ?_, by decide, by decide, by decide, ?_, by decide, by decide⟩
  · have hp : parseDecimal "1234.56" = some { num := 123456, exp := 2 } := by decide
    rw [hp]
    show some (Dec.toRat { num := 123456, exp := 2 }) = some ((123456 : ℚ) / 100)
    rw [Dec.toRat]
    norm_num
  · intro pid prid pname pp amt src ref api h
    unfold phase2_post_tebra_payment at h
    split at h
    · exact absurd h (by simp [PaymentOutcome.calledRemote])
    · split at h
      · rw [apply_ite PaymentOutcome.calledRemote] at h
        simp at h
      · rename_i a heq
        split at h
        · rw [apply_ite PaymentOutcome.calledRemote] at h
          simp at h
        · rename_i hpos
          exact ⟨a, heq, (Dec.toRat_pos a).mpr (by omega)⟩

/-- Witness for `C7_amount_validation`. -/
theorem C7_amount_validation_witness :
    ∃ a : Dec, parseDecimal (cleanAmount "$1,234.56") = some a ∧ 0 < a.toRat :=
  C7_amount_validation.2.2.2.2.2.1 "100" "5" "Acme" "B1" "$1,234.56" "CASH" ""
    (.resp { errorMessage := none, securityResult := none, paymentID := some 77 })
    (by decide)

/-! ### String-splitting lemmas for C5 and C9 -/

/-- The characters whose presence at either end of a message string does
not change its cleaned semicolon segments: whitespace and semicolons. -/
def sjChar (c : Char) : Bool :=
  wsChar c || c = ';'

theorem mem_of_mem_dropWhile {q : Char → Bool} {c : Char} {l : List Char}
    (h : c ∈ l.dropWhile q) : c ∈ l := by
  induction l with
  | nil => simpa using h
  | cons a l ih =>
    by_cases ha : q a = true
    · rw [List.dropWhile_cons_of_pos ha] at h
      exact List.mem_cons_of_mem _ (ih h)
    · rw [List.dropWhile_cons_of_neg ha] at h
      exact h

theorem dropWhile_idem (q : Char → Bool) (l : List Char) :
    (l.dropWhile q).dropWhile q = l.dropWhile q := by
  induction l with
  | nil => rfl
  | cons a l ih =>
    by_cases ha : q a = true
    · rw [List.dropWhile_cons_of_pos ha]
      exact ih
    · rw [List.dropWhile_cons_of_neg ha, List.dropWhile_cons_of_neg ha]

theorem dropWhile_append3 (q : Char → Bool) (l r : List Char) :
    (l ++ r).dropWhile q =
      (if l.dropWhile q = [] then r.dropWhile q else l.dropWhile q ++ r) := by
  induction l with
  | nil => simp
  | cons a l ih =>
    by_cases ha : q a = true
    · rw [List.cons_append, List.dropWhile_cons_of_pos ha,
        List.dropWhile_cons_of_pos ha, ih]
    · rw [List.cons_append, List.dropWhile_cons_of_neg ha,
        List.dropWhile_cons_of_neg ha]
      simp

theorem dropWhile_eq_nil_forall {q : Char → Bool} {l : List Char}
    (h : l.dropWhile q = []) : ∀ c ∈ l, q c = true := by
  induction l with
  | nil => intro c hc; cases hc
  | cons a l ih =>
    by_cases ha : q a = true
    · rw [List.dropWhile_cons_of_pos ha] at h
      intro c hc
      rcases List.mem_cons.mp hc with rfl | hc
      · exact ha
      · exact ih h c hc
    · rw [List.dropWhile_cons_of_neg ha] at h
      cases h

theorem dropEndWhile_nil (q : Char → Bool) : dropEndWhile q [] = [] := rfl

theorem dropEndWhile_snoc_pos {q : Char → Bool} {c : Char} (hc : q c = true)
    (m : List Char) : dropEndWhile q (m ++ [c]) = dropEndWhile q m := by
  unfold dropEndWhile
  rw [List.reverse_append, List.reverse_singleton, List.singleton_append,
    List.dropWhile_cons_of_pos hc]

theorem dropEndWhile_snoc_neg {q : Char → Bool} {c : Char} (hc : q c = false)
    (m : List Char) : dropEndWhile q (m ++ [c]) = m ++ [c] := by
  unfold dropEndWhile
  rw [List.reverse_append, List.reverse_singleton, List.singleton_append,
    List.dropWhile_cons_of_neg (by simp [hc]), List.reverse_cons, List.reverse_reverse]

theorem dropEndWhile_idem (q : Char → Bool) (l : List Char) :
    dropEndWhile q (dropEndWhile q l) = dropEndWhile q l := by
  unfold dropEndWhile
  rw [List.reverse_reverse, dropWhile_idem]

theorem length_dropWhile_le3 (q : Char → Bool) (l : List Char) :
    (l.dropWhile q).length ≤ l.length := by
  induction l with
  | nil => simp
  | cons a l ih =>
    by_cases ha : q a = true
    · rw [List.dropWhile_cons_of_pos ha]
      exact Nat.le_succ_of_le ih
    · rw [List.dropWhile_cons_of_neg ha]

theorem splitOnPred_cons_pos (p : Char → Bool) {a : Char} (ha : p a = true)
    (l : List Char) : splitOnPred p (a :: l) = [] :: splitOnPred p l := by
  simp [splitOnPred, ha]

theorem splitOnPred_cons_neg (p : Char → Bool) {a : Char} (ha : p a = false)
    {l : List Char} {g : List Char} {gs : List (List Char)}
    (hl : splitOnPred p l = g :: gs) :
    splitOnPred p (a :: l) = (a :: g) :: gs := by
  simp [splitOnPred, ha, hl]

theorem dropWhile_dropEndWhile (q : Char → Bool) (l : List Char)
    (hl : l.dropWhile q = l) : (dropEndWhile q l).dropWhile q = dropEndWhile q l := by
  rcases l with _ | ⟨a, as⟩
  · rfl
  · have ha : q a = false := by
      by_cases h : q a = true
      · rw [List.dropWhile_cons_of_pos h] at hl
        have := congrArg List.length hl
        simp at this
        have hle := length_dropWhile_le3 q as
        omega
      · simpa using h
    unfold dropEndWhile
    rw [List.reverse_cons, dropWhile_append3]
    by_cases he : as.reverse.dropWhile q = []
    · rw [if_pos he, List.dropWhile_cons_of_neg (by simp [ha]), List.reverse_singleton]
      rw [List.dropWhile_cons_of_neg (by simp [ha])]
    · rw [if_neg he, List.reverse_append, List.reverse_singleton, List.singleton_append]
      rw [List.dropWhile_cons_of_neg (by simp [ha])]

theorem stripChars_idem (q : Char → Bool) (l : List Char) :
    stripCharsL q (stripCharsL q l) = stripCharsL q l := by
  unfold stripCharsL
  rw [dropWhile_dropEndWhile q (l.dropWhile q) (dropWhile_idem q l), dropEndWhile_idem]

theorem stripChars_eq_nil_forall {q : Char → Bool} {l : List Char}
    (h : stripCharsL q l = []) : ∀ c ∈ l, q c = true := by
  unfold stripCharsL dropEndWhile at h
  rw [List.reverse_eq_nil_iff] at h
  have hall : ∀ c ∈ (l.dropWhile q).reverse, q c = true := dropWhile_eq_nil_forall h
  intro c hc
  rcases List.mem_append.mp
      ((List.takeWhile_append_dropWhile (p := q) (l := l)) ▸ hc) with hc1 | hc2
  · exact List.mem_takeWhile_imp hc1
  · exact hall c (List.mem_reverse.mpr hc2)

theorem mem_of_mem_stripChars {q : Char → Bool} {c : Char} {l : List Char}
    (h : c ∈ stripCharsL q l) : c ∈ l := by
  unfold stripCharsL dropEndWhile at h
  rw [List.mem_reverse] at h
  have h2 := mem_of_mem_dropWhile h
  rw [List.mem_reverse] at h2
  exact mem_of_mem_dropWhile h2

theorem splitOnPred_shape (p : Char → Bool) (l : List Char) :
    ∃ g gs, splitOnPred p l = g :: gs := by
  induction l with
  | nil => exact ⟨[], [], rfl⟩
  | cons c rest ih =>
    obtain ⟨g, gs, hg⟩ := ih
    by_cases hc : p c = true
    · exact ⟨[], splitOnPred p rest, by simp [splitOnPred, hc]⟩
    · exact ⟨c :: g, gs, by simp [splitOnPred, hc, hg]⟩

theorem splitOnPred_append_sep (p : Char → Bool) {c : Char} (hc : p c = true)
    (xs ys : List Char) :
    splitOnPred p (xs ++ c :: ys) = splitOnPred p xs ++ splitOnPred p ys := by
  induction xs with
  | nil =>
    rw [List.nil_append, splitOnPred_cons_pos p hc]
    rfl
  | cons a xs ih =>
    rw [List.cons_append]
    by_cases ha : p a = true
    · rw [splitOnPred_cons_pos p ha, splitOnPred_cons_pos p ha, ih, List.cons_append]
    · obtain ⟨g, gs, hg⟩ := splitOnPred_shape p xs
      have hg2 : splitOnPred p (xs ++ c :: ys) = g :: (gs ++ splitOnPred p ys) := by
        rw [ih, hg, List.cons_append]
      rw [splitOnPred_cons_neg p (by simpa using ha) hg2,
        splitOnPred_cons_neg p (by simpa using ha) hg, List.cons_append]

theorem splitOnPred_sepFree (p : Char → Bool) (l : List Char)
    (h : ∀ c ∈ l, p c = false) : splitOnPred p l = [l] := by
  induction l with
  | nil => rfl
  | cons a l ih =>
    have ha : p a = false := h a (List.mem_cons_self _ _)
    have hl := ih (fun c hc => h c (List.mem_cons_of_mem _ hc))
    simp [splitOnPred, ha, hl]

theorem splitOnPred_groups_sepFree (p : Char → Bool) (l : List Char) :
    ∀ g ∈ splitOnPred p l, ∀ c ∈ g, p c = false := by
  induction l with
  | nil =>
    intro g hg c hc
    simp only [splitOnPred, List.mem_singleton] at hg
    subst hg
    cases hc
  | cons a l ih =>
    intro g hg c hc
    by_cases ha : p a = true
    · rw [splitOnPred_cons_pos p ha] at hg
      rcases List.mem_cons.mp hg with rfl | hg
      · cases hc
      · exact ih g hg c hc
    · obtain ⟨g0, gs, hg0⟩ := splitOnPred_shape p l
      rw [splitOnPred_cons_neg p (by simpa using ha) hg0] at hg
      rcases List.mem_cons.mp hg with rfl | hg
      · rcases List.mem_cons.mp hc with rfl | hc2
        · simpa using ha
        · exact ih g0 (hg0 ▸ List.mem_cons_self _ _) c hc2
      · exact ih g (hg0 ▸ List.mem_cons_of_mem _ hg) c hc

theorem splitOnPred_snoc_neg (p : Char → Bool) {c : Char} (hc : p c = false)
    (l : List Char) :
    ∃ g gs, splitOnPred p l = gs ++ [g]
      ∧ splitOnPred p (l ++ [c]) = gs ++ [g ++ [c]] := by
  induction l with
  | nil =>
    refine ⟨[], [], rfl, ?_⟩
    rw [List.nil_append, List.nil_append]
    exact splitOnPred_sepFree p [c] (by intro d hd; rcases List.mem_singleton.mp hd with rfl; exact hc)
  | cons a l ih =>
    obtain ⟨g, gs, h1, h2⟩ := ih
    by_cases ha : p a = true
    · refine ⟨g, [] :: gs, ?_, ?_⟩
      · rw [splitOnPred_cons_pos p ha, h1, List.cons_append]
      · rw [List.cons_append, splitOnPred_cons_pos p ha, h2, List.cons_append]
    · rcases gs with _ | ⟨g0, gs0⟩
      · rw [List.nil_append] at h1 h2
        refine ⟨a :: g, [], ?_, ?_⟩
        · rw [splitOnPred_cons_neg p (by simpa using ha) h1, List.nil_append]
        · rw [List.cons_append, splitOnPred_cons_neg p (by simpa using ha) h2,
            List.nil_append, List.cons_append]
      · rw [List.cons_append] at h1 h2
        refine ⟨g, (a :: g0) :: gs0, ?_, ?_⟩
        · rw [splitOnPred_cons_neg p (by simpa using ha) h1, List.cons_append]
        · rw [List.cons_append, splitOnPred_cons_neg p (by simpa using ha) h2,
            List.cons_append]

theorem strMk_data (s : String) : String.mk s.data = s := rfl

theorem strExt {a b : String} (h : a.data = b.data) : a = b := by
  have h2 := congrArg String.mk h
  rwa [strMk_data, strMk_data] at h2

theorem stripChars_cons_pos {q : Char → Bool} {c : Char} (hc : q c = true)
    (l : List Char) : stripCharsL q (c :: l) = stripCharsL q l := by
  unfold stripCharsL
  rw [List.dropWhile_cons_of_pos hc]

theorem stripChars_snoc_pos {q : Char → Bool} {c : Char} (hc : q c = true)
    (l : List Char) : stripCharsL q (l ++ [c]) = stripCharsL q l := by
  unfold stripCharsL
  rw [dropWhile_append3]
  by_cases he : l.dropWhile q = []
  · rw [if_pos he, he, List.dropWhile_cons_of_pos hc]
    rfl
  · rw [if_neg he, dropEndWhile_snoc_pos hc]

theorem pyStrip_idem (x : String) : pyStrip (pyStrip x) = pyStrip x := by
  unfold pyStrip
  rw [strData_mk, stripChars_idem]

theorem splitClean_nil : splitClean "" = [] := rfl

theorem sc_cons_sj {c : Char} (hc : sjChar c = true) (l : List Char) :
    splitClean (String.mk (c :: l)) = splitClean (String.mk l) := by
  by_cases hsemi : c = ';'
  · subst hsemi
    unfold splitClean
    rw [strData_mk, strData_mk, splitOnPred_cons_pos _ (by decide), List.map_cons]
    rw [List.filter_cons_of_neg (by decide)]
  · have hws : wsChar c = true := by
      unfold sjChar at hc
      rcases Bool.or_eq_true_iff.mp hc with h | h
      · exact h
      · exact absurd (by simpa using h) hsemi
    obtain ⟨g, gs, hg⟩ := splitOnPred_shape (fun c => decide (c = ';')) l
    unfold splitClean
    rw [strData_mk, strData_mk,
      splitOnPred_cons_neg _
        (show (fun x => decide (x = ';')) c = false by simp [hsemi]) hg,
      hg, List.map_cons, List.map_cons]
    have : pyStrip (String.mk (c :: g)) = pyStrip (String.mk g) := by
      unfold pyStrip
      rw [strData_mk, strData_mk, stripChars_cons_pos hws]
    rw [this]

theorem sc_snoc_sj {c : Char} (hc : sjChar c = true) (l : List Char) :
    splitClean (String.mk (l ++ [c])) = splitClean (String.mk l) := by
  by_cases hsemi : c = ';'
  · subst hsemi
    unfold splitClean
    rw [strData_mk, strData_mk,
      show l ++ [';'] = l ++ ';' :: [] from rfl,
      splitOnPred_append_sep _ (by decide) l [], List.map_append, List.filter_append]
    have hnil : (List.map (fun g => pyStrip (String.mk g))
        (splitOnPred (fun x => decide (x = ';')) [])).filter (fun x => decide (x ≠ "")) =
          ([] : List String) := by decide
    rw [hnil, List.append_nil]
  · have hws : wsChar c = true := by
      unfold sjChar at hc
      rcases Bool.or_eq_true_iff.mp hc with h | h
      · exact h
      · exact absurd (by simpa using h) hsemi
    obtain ⟨g, gs, h1, h2⟩ := splitOnPred_snoc_neg (fun c => decide (c = ';'))
      (show (fun x => decide (x = ';')) c = false by simp [hsemi]) l
    unfold splitClean
    rw [strData_mk, strData_mk, h1, h2, List.map_append, List.map_append,
      List.filter_append, List.filter_append, List.map_singleton, List.map_singleton]
    have : pyStrip (String.mk (g ++ [c])) = pyStrip (String.mk g) := by
      unfold pyStrip
      rw [strData_mk, strData_mk, stripChars_snoc_pos hws]
    rw [this]

theorem sc_dropWhile (q : Char → Bool) (hq : ∀ c, q c = true → sjChar c = true)
    (l : List Char) :
    splitClean (String.mk (l.dropWhile q)) = splitClean (String.mk l) := by
  induction l with
  | nil => rfl
  | cons a l ih =>
    by_cases ha : q a = true
    · rw [List.dropWhile_cons_of_pos ha, sc_cons_sj (hq a ha), ih]
    · rw [List.dropWhile_cons_of_neg ha]

theorem sc_dropEnd (q : Char → Bool) (hq : ∀ c, q c = true → sjChar c = true)
    (l : List Char) :
    splitClean (String.mk (dropEndWhile q l)) = splitClean (String.mk l) := by
  induction l using List.reverseRecOn with
  | nil => rfl
  | append_singleton m c ih =>
    by_cases hc : q c = true
    · rw [dropEndWhile_snoc_pos hc, sc_snoc_sj (hq c hc), ih]
    · rw [dropEndWhile_snoc_neg (by simpa using hc)]

theorem sc_strip (q : Char → Bool) (hq : ∀ c, q c = true → sjChar c = true)
    (l : List Char) :
    splitClean (String.mk (stripCharsL q l)) = splitClean (String.mk l) := by
  unfold stripCharsL
  rw [sc_dropEnd q hq, sc_dropWhile q hq]

theorem splitClean_pyStrip (s : String) : splitClean (pyStrip s) = splitClean s := by
  have := sc_strip wsChar (fun c h => by simp [sjChar, h]) s.data
  rw [strMk_data] at this
  exact this

theorem splitClean_pyStripSS (s : String) :
    splitClean (pyStripSemiSpace s) = splitClean s := by
  have hq : ∀ c, ssChar c = true → sjChar c = true := by
    intro c h
    rcases Bool.or_eq_true_iff.mp h with h | h
    · simp [sjChar, h]
    · have : c = ' ' := by simpa using h
      subst this
      decide
  have := sc_strip ssChar hq s.data
  rw [strMk_data] at this
  exact this

theorem splitClean_mk_append_semi (x y : List Char) :
    splitClean (String.mk (x ++ ';' :: y)) =
      splitClean (String.mk x) ++ splitClean (String.mk y) := by
  unfold splitClean
  rw [strData_mk, strData_mk, strData_mk, splitOnPred_append_sep _ (by decide) x y,
    List.map_append, List.filter_append]

theorem splitClean_join (segs : List String) :
    splitClean (joinWith "; " segs) = (segs.map splitClean).flatten := by
  induction segs with
  | nil => rfl
  | cons s rest ih =>
    cases rest with
    | nil =>
      show splitClean s = (splitClean s :: []).flatten
      rw [List.flatten_cons, List.flatten_nil, List.append_nil]
    | cons r rs =>
      have hstr : joinWith "; " (s :: r :: rs) =
          String.mk (s.data ++ ';' :: ' ' :: (joinWith "; " (r :: rs)).data) := by
        apply strExt
        show (s ++ "; " ++ joinWith "; " (r :: rs)).data = _
        rw [strData_append, strData_append, strData_mk, List.append_assoc]
        rfl
      have hsp : splitClean (String.mk (' ' :: (joinWith "; " (r :: rs)).data)) =
          splitClean (joinWith "; " (r :: rs)) := by
        rw [sc_cons_sj (show sjChar ' ' = true from by decide), strMk_data]
      rw [hstr, splitClean_mk_append_semi, strMk_data, hsp, ih]
      rfl

theorem splitClean_mem_single {s m : String} (hm : m ∈ splitClean s) :
    splitClean m = [m] := by
  unfold splitClean at hm
  rcases List.mem_filter.mp hm with ⟨hmem, hne⟩
  rcases List.mem_map.mp hmem with ⟨g, hg, rfl⟩
  have hne2 : pyStrip (String.mk g) ≠ "" := by simpa using hne
  have hgfree := splitOnPred_groups_sepFree (fun c => decide (c = ';')) s.data g hg
  have hmfree : ∀ c ∈ (pyStrip (String.mk g)).data, decide (c = ';') = false := by
    intro c hc
    unfold pyStrip at hc
    rw [strData_mk] at hc
    exact hgfree c (mem_of_mem_stripChars hc)
  unfold splitClean
  rw [splitOnPred_sepFree _ _ hmfree, List.map_singleton, strMk_data, pyStrip_idem,
    List.filter_cons_of_pos (by simpa using hne2)]
  rfl

theorem join_map_single {L : List String} (h : ∀ m ∈ L, splitClean m = [m]) :
    (L.map splitClean).flatten = L := by
  induction L with
  | nil => rfl
  | cons m L ih =>
    rw [List.map_cons, List.flatten_cons, h m (List.mem_cons_self _ _),
      ih (fun x hx => h x (List.mem_cons_of_mem _ hx))]
    rfl

theorem join_map_filter (L : List String) :
    ((L.filter (· ≠ "")).map splitClean).flatten = (L.map splitClean).flatten := by
  induction L with
  | nil => rfl
  | cons m L ih =>
    by_cases hm : m = ""
    · subst hm
      rw [List.filter_cons_of_neg (by simp)]
      rw [ih, List.map_cons, List.flatten_cons, splitClean_nil, List.nil_append]
    · rw [List.filter_cons_of_pos (by simpa using hm), List.map_cons, List.map_cons,
        List.flatten_cons, List.flatten_cons, ih]

/-! ### C9: Phase 3 message propagation is append-only -/

/-- C9: when Phase 3 propagates a group outcome to a member row, the
cleaned semicolon segments of the new cell are exactly the row's existing
segments followed by the segments of the new message (nothing when the
deduplication condition suppresses it) — existing messages are never
replaced or erased; concrete merges illustrate appending after Phase 1/2
messages and the dedup case. -/
theorem C9_messages_append_only :
    (∀ (existing p3simple : String) (encId : Option String),
      splitClean (propagateP3Message existing p3simple encId) =
        splitClean existing ++
          (if propagateSkipCond existing p3simple encId = true then []
           else splitClean p3simple))
    ∧ propagateP3Message "P1 Status: X; Payment #77 Posted." "Enc Error: Y" none =
        "P1 Status: X; Payment #77 Posted.; Enc Error: Y"
    ∧ propagateP3Message "P1 Status: X" "Encounter #5 Created." (some "5") =
        "P1 Status: X; Encounter #5 Created."
    ∧ propagateP3Message "Encounter #5 Created." "Encounter #5 Created." (some "5") =
        "Encounter #5 Created." := by
  refine ⟨?_, by decide, by decide, by decide⟩
  intro existing p3simple encId
  simp only [propagateP3Message, propagateSkipCond]
  rw [splitClean_pyStripSS, splitClean_join, join_map_filter]
  have hA : ((propagateAllMsgs existing).map splitClean).flatten = splitClean existing := by
    unfold propagateAllMsgs
    by_cases he : pyStrip existing ≠ ""
    · rw [if_pos he, join_map_single (fun m hm => splitClean_mem_single hm)]
      exact splitClean_pyStrip existing
    · rw [if_neg he]
      push_neg at he
      have h0 : splitClean existing = [] := by
        rw [← splitClean_pyStrip existing, he, splitClean_nil]
      rw [h0]
      rfl
  by_cases hskip : p3MessageSkipped (propagateAllMsgs existing) p3simple encId = true
  · rw [if_pos hskip, if_pos hskip, hA, List.append_nil]
  · rw [if_neg hskip, if_neg hskip, List.map_append, List.flatten_append, hA]
    congr 1
    rw [List.map_singleton, List.flatten_cons, List.flatten_nil, List.append_nil]
    exact splitClean_pyStrip p3simple

/-! ### C5: blank and non-blank row messages -/

theorem joinWith_data_cons (sep m : String) (rest : List String) :
    ∃ t, (joinWith sep (m :: rest)).data = m.data ++ t := by
  cases rest with
  | nil => exact ⟨[], by simp [joinWith]⟩
  | cons r rs =>
    refine ⟨(sep ++ joinWith sep (r :: rs)).data, ?_⟩
    show (m ++ sep ++ joinWith sep (r :: rs)).data = _
    rw [strData_append, strData_append, strData_append, List.append_assoc]

theorem stripSS_join_ne_empty {c : Char} (hc : ssChar c = false)
    (m : String) (rest : List String) (hm : c ∈ m.data) :
    pyStripSemiSpace (joinWith "; " ((m :: rest).filter (· ≠ ""))) ≠ "" := by
  have hmne : m ≠ "" := by
    rintro rfl
    cases hm
  rw [List.filter_cons_of_pos (by simpa using hmne)]
  obtain ⟨t, ht⟩ := joinWith_data_cons "; " m (rest.filter (· ≠ ""))
  intro hcontra
  have hdata : stripCharsL ssChar (joinWith "; " (m :: rest.filter (· ≠ ""))).data = [] := by
    have h2 := congrArg String.data hcontra
    simpa [pyStripSemiSpace] using h2
  have hcmem : c ∈ (joinWith "; " (m :: rest.filter (· ≠ ""))).data := by
    rw [ht]
    exact List.mem_append_left _ hm
  have := stripChars_eq_nil_forall hdata c hcmem
  rw [hc] at this
  cases this

theorem p1MsgOf_hasP (p1 : Phase1Results)
    (h : p1.simpleError.isSome = true
      ∨ ¬(p1.fetchedInsuranceStatus ∈ p1ExemptStatuses)) :
    'P' ∈ (p1MsgOf p1).data := by
  unfold p1MsgOf
  rcases hse : p1.simpleError with _ | e
  · rcases h with h | h
    · rw [hse] at h
      cases h
    · rw [if_neg (by simpa using h)]
      show 'P' ∈ ("P1 Status: " ++ p1.fetchedInsuranceStatus).data
      rw [strData_append]
      exact List.mem_append_left _ (by decide)
  · show 'P' ∈ ("P1 Error: " ++ e).data
    rw [strData_append]
    exact List.mem_append_left _ (by decide)

/-- C5 counterexample: a fully processed row — patient id and practice
present, the patient fetched successfully — ends the run with a blank
message field: its DOS is blank, so Phase 1 finishes in the exempt
status `Ins. Check Skipped (No Valid DOS)` with no message, the payment
inputs are absent so Phase 2 is silently skipped without a marker, and
the row is excluded from Phase 3 grouping; so not every processed row's
message field is non-blank. -/
theorem C5_counterexample :
    (processRowP12 c5Row (.ok (some c5Patient)) (.ok []) (.resp c7PayResp) []).1.errorMsg = ""
    ∧ ((processRowP12 c5Row (.ok (some c5Patient)) (.ok []) (.resp c7PayResp)
        []).1.p1.map (·.fetchedPatientName)) = some (some "John Doe")
    ∧ ((processRowP12 c5Row (.ok (some c5Patient)) (.ok []) (.resp c7PayResp)
        []).1.p1.map (·.fetchedInsuranceStatus)) =
        some "Ins. Check Skipped (No Valid DOS)"
    ∧ groupEligible c5Row (some "John Doe") = false := by
  exact ⟨by decide, by decide, by decide, by decide⟩

/-- C5 (amended): a row's message field can end blank when every phase
declines to record an outcome (Phase 1 finished without error in an
exempt status, the payment was not attempted, and the row joined no
group); but whenever Phase 1 records an error or a non-exempt status —
the outcomes the phase writes to the message field — the row's message
is non-blank. -/
theorem C5_nonblank_on_recorded_outcome :
    ∀ (inp : RowInputs) (p1resp : Phase1ApiResult) (pracResp : PracticesApiResult)
      (payResp : PaymentApiResult) (cache : PracticeCache),
      pyStrip inp.patientId ≠ "" →
      pyStrip inp.practice ≠ "" →
      ((phase1_fetch_patient_and_insurance (pyStrip inp.patientId) (pyStrip inp.dos)
          p1resp).simpleError.isSome = true
        ∨ ¬((phase1_fetch_patient_and_insurance (pyStrip inp.patientId) (pyStrip inp.dos)
          p1resp).fetchedInsuranceStatus ∈ p1ExemptStatuses)) →
      (processRowP12 inp p1resp pracResp payResp cache).1.errorMsg ≠ "" := by
  intro inp p1resp pracResp payResp cache h1 h2 h3
  have hP : 'P' ∈ (p1MsgOf (phase1_fetch_patient_and_insurance (pyStrip inp.patientId)
      (pyStrip inp.dos) p1resp)).data := p1MsgOf_hasP _ h3
  simp only [processRowP12]
  rw [if_neg (by push_neg; exact ⟨h1, h2⟩)]
  split
  · split
    · exact stripSS_join_ne_empty (by decide) _ _ hP
    · rw [List.cons_append]
      exact stripSS_join_ne_empty (by decide) _ _ hP
  · exact stripSS_join_ne_empty (by decide) _ _ hP

/-- Witness for `C5_nonblank_on_recorded_outcome`. -/
theorem C5_nonblank_on_recorded_outcome_witness :
    (processRowP12 c5BadRow (.apiError "boom") (.ok []) (.resp c7PayResp) []).1.errorMsg ≠ "" :=
  C5_nonblank_on_recorded_outcome c5BadRow (.apiError "boom") (.ok []) (.resp c7PayResp) []
    (by decide) (by decide) (by decide)

end TebraAuto
